import Mathlib

/-!
A shallow embedding of `py-bridge/fetch_fundamentals.py` from the
TradingAgentsServer repository, together with theorems settling the frozen
claims about its specification.

Modelling conventions:
* CPython floats are modelled by `PyFloat`: exact rationals for finite values
  plus the three non-finite values (rounding of decimals to binary is not
  modelled; finite arithmetic is kept exact).
* Raw table cells are `RawVal` (Python `None`, a number, or a string).
* Fallible operations return `Option`/`Except`; a Python exception caught by a
  handler corresponds to the `none`/`.error` branch, so "never raises" is
  expressed by totality of the embedded functions.
* External collaborators (akshare, the eastmoney HTTP endpoint) are inputs:
  their responses (or the exceptions they raise) are fields of `Env`.
-/

/-- Model of a CPython `float` value: an exact rational for a finite value,
plus infinities and NaN. -/
inductive PyFloat where
  | finite (q : ℚ)
  | inf
  | ninf
  | nan
deriving DecidableEq

instance : Inhabited PyFloat := ⟨PyFloat.finite 0⟩

/-- A raw scalar cell as delivered by the tabular collaborators: Python `None`,
a number (ints are embedded as exact finite floats), or a string. -/
inductive RawVal where
  | pynone
  | num (f : PyFloat)
  | str (s : String)
deriving DecidableEq

instance : Inhabited RawVal := ⟨RawVal.pynone⟩

/-- Python `<` on floats: every comparison involving NaN is false. -/
def pyLt : PyFloat → PyFloat → Bool
  | .finite a, .finite b => decide (a < b)
  | .finite _, .inf => true
  | .ninf, .finite _ => true
  | .ninf, .inf => true
  | _, _ => false

/-- Python `abs` on floats. -/
def pyAbs : PyFloat → PyFloat
  | .finite q => .finite |q|
  | .inf => .inf
  | .ninf => .inf
  | .nan => .nan

/-- Python `+` on floats. -/
def pyAdd : PyFloat → PyFloat → PyFloat
  | .finite a, .finite b => .finite (a + b)
  | .nan, _ => .nan
  | _, .nan => .nan
  | .inf, .ninf => .nan
  | .ninf, .inf => .nan
  | .inf, _ => .inf
  | _, .inf => .inf
  | .ninf, _ => .ninf
  | _, .ninf => .ninf

/-- Python `-` on floats. -/
def pySub : PyFloat → PyFloat → PyFloat
  | .finite a, .finite b => .finite (a - b)
  | .nan, _ => .nan
  | _, .nan => .nan
  | .inf, .inf => .nan
  | .ninf, .ninf => .nan
  | .inf, _ => .inf
  | .ninf, _ => .ninf
  | .finite _, .inf => .ninf
  | .finite _, .ninf => .inf

/-- Python `*` on floats. -/
def pyMul : PyFloat → PyFloat → PyFloat
  | .finite a, .finite b => .finite (a * b)
  | .nan, _ => .nan
  | _, .nan => .nan
  | .inf, .inf => .inf
  | .inf, .ninf => .ninf
  | .ninf, .inf => .ninf
  | .ninf, .ninf => .inf
  | .inf, .finite b => if b = 0 then .nan else if b < 0 then .ninf else .inf
  | .ninf, .finite b => if b = 0 then .nan else if b < 0 then .inf else .ninf
  | .finite a, .inf => if a = 0 then .nan else if a < 0 then .ninf else .inf
  | .finite a, .ninf => if a = 0 then .nan else if a < 0 then .inf else .ninf

/-- Python `/` on floats, for denominators that are not finite zero (every
division in the source is guarded by `safe_div`'s `denominator == 0` check, so
the finite/zero case — a Python `ZeroDivisionError` — is unreachable there; we
map it to NaN to stay total). -/
def pyDiv : PyFloat → PyFloat → PyFloat
  | .finite a, .finite b => if b = 0 then .nan else .finite (a / b)
  | .nan, _ => .nan
  | _, .nan => .nan
  | .inf, .inf => .nan
  | .inf, .ninf => .nan
  | .ninf, .inf => .nan
  | .ninf, .ninf => .nan
  | .finite _, .inf => .finite 0
  | .finite _, .ninf => .finite 0
  | .inf, .finite b => if b < 0 then .ninf else .inf
  | .ninf, .finite b => if b < 0 then .inf else .ninf

/-- Python truthiness of a float: `0.0` is falsy, everything else (including
NaN and the infinities) is truthy. -/
def pyTruthy : PyFloat → Bool
  | .finite q => decide (q ≠ 0)
  | _ => true

/-- Truthiness of an optional float (`None` is falsy). -/
def optTruthy : Option PyFloat → Bool
  | none => false
  | some v => pyTruthy v

def PyFloat.isFinite : PyFloat → Bool
  | .finite _ => true
  | _ => false

/-- ASCII lowercase of one character (Python `str.lower` restricted to ASCII;
the identity on the CJK column names used by this program). -/
def charToLower (c : Char) : Char :=
  if 65 ≤ c.toNat ∧ c.toNat ≤ 90 then Char.ofNat (c.toNat + 32) else c

/-- Lowercase a character list. -/
def lowerL (cs : List Char) : List Char := cs.map charToLower

/-- Strip leading and trailing whitespace (Python `str.strip`). -/
def trimL (cs : List Char) : List Char :=
  ((cs.dropWhile (fun c => c.isWhitespace)).reverse.dropWhile
    (fun c => c.isWhitespace)).reverse

/-- `pat` starts the list `l`. -/
def startsL : List Char → List Char → Bool
  | [], _ => true
  | _ :: _, [] => false
  | a :: as, b :: bs => a = b && startsL as bs

/-- `pat` occurs as a contiguous substring of `l` (Python `in` on strings). -/
def infixL (pat : List Char) : List Char → Bool
  | [] => pat.isEmpty
  | l@(_ :: rest) => startsL pat l || infixL pat rest

/-- Numeric value of a digit list (most significant first). -/
def digitsVal (cs : List Char) : ℕ := cs.foldl (fun a c => a * 10 + (c.toNat - 48)) 0

/-- Non-empty and all decimal digits. -/
def isDigits (cs : List Char) : Bool := !cs.isEmpty && cs.all (fun c => c.isDigit)

/-- Split a list at the first occurrence of `c` (the occurrence is dropped). -/
def splitFirst (c : Char) : List Char → Option (List Char × List Char)
  | [] => none
  | x :: xs => if x = c then some ([], xs) else (splitFirst c xs).map (fun p => (x :: p.1, p.2))

/-- Mantissa of a decimal literal: `digits`, `digits.digits`, `digits.` or
`.digits`, as an exact rational. -/
def parseMantissa (cs : List Char) : Option ℚ :=
  match splitFirst '.' cs with
  | none => if isDigits cs then some ((digitsVal cs : ℕ) : ℚ) else none
  | some (ip, fp) =>
    if ip.isEmpty && fp.isEmpty then none
    else if ip.all (fun c => c.isDigit) && fp.all (fun c => c.isDigit) then
      some ((digitsVal ip : ℕ) + (digitsVal fp : ℕ) / ((10 : ℚ) ^ fp.length))
    else none

/-- Exponent part of a decimal literal: optionally signed digits. -/
def parseExp (cs : List Char) : Option ℤ :=
  match cs with
  | '+' :: r => if isDigits r then some ((digitsVal r : ℕ) : ℤ) else none
  | '-' :: r => if isDigits r then some (-((digitsVal r : ℕ) : ℤ)) else none
  | _ => if isDigits cs then some ((digitsVal cs : ℕ) : ℤ) else none

/-- Unsigned decimal literal with optional exponent. -/
def parseUnsignedQ (cs : List Char) : Option ℚ :=
  match splitFirst 'e' cs with
  | none => parseMantissa cs
  | some (m, e) =>
    match parseMantissa m, parseExp e with
    | some q, some ex => some (q * (10 : ℚ) ^ ex)
    | _, _ => none

/-- Optionally signed decimal literal. -/
def parseSignedQ : List Char → Option ℚ
  | '+' :: rest => parseUnsignedQ rest
  | '-' :: rest => (parseUnsignedQ rest).map (fun q => -q)
  | cs => parseUnsignedQ cs

/-- Model of CPython `float(str)`, restricted to the common grammar: leading
and trailing whitespace stripped, optional sign, decimal digits with optional
fraction and exponent, and the case-insensitive keywords inf/infinity/nan
(digit-group underscores and overflow-to-infinity of huge finite literals are
not modelled). -/
def pyParseFloat (s : String) : Option PyFloat :=
  let t := lowerL (trimL s.data)
  if t = ("inf").data ∨ t = ("+inf").data ∨ t = ("infinity").data ∨ t = ("+infinity").data then
    some PyFloat.inf
  else if t = ("-inf").data ∨ t = ("-infinity").data then some PyFloat.ninf
  else if t = ("nan").data ∨ t = ("+nan").data ∨ t = ("-nan").data then some PyFloat.nan
  else (parseSignedQ t).map PyFloat.finite

/-- `safe_float` (fetch_fundamentals.py lines 13–22): `None` → `None`;
`float(val)` raising (unparseable string) → `None`; NaN (`f != f`) → `None`;
otherwise the parsed value unchanged. -/
def safe_float : RawVal → Option PyFloat
  | .pynone => none
  | .num f => if f = PyFloat.nan then none else some f
  | .str s =>
    match pyParseFloat s with
    | none => none
    | some f => if f = PyFloat.nan then none else some f

/-- A table row as an ordered mapping column-name → raw value (a Python dict /
pandas Series preserves insertion order). -/
abbrev Row := List (String × RawVal)

/-- `kw.lower() in name.lower()`: case-insensitive substring test. -/
def containsLower (name kw : String) : Bool :=
  infixL (lowerL kw.data) (lowerL name.data)

/-- `any(k.lower() in lower_name for k in keywords)`. -/
def kwMatch (keywords : List String) (name : String) : Bool :=
  keywords.any (fun k => containsLower name k)

/-- The shared loop of `extract_metric` and `pick_by_keywords`: first
keyword-matching column whose value sanitizes to a number. -/
def extractGo (keywords : List String) : Row → Option PyFloat
  | [] => none
  | (k, raw) :: rest =>
    if kwMatch keywords k then
      match safe_float raw with
      | some v => some v
      | none => extractGo keywords rest
    else extractGo keywords rest

/-- `extract_metric` (lines 137–147): `if not row: return None` (covers both a
`None` row and an empty dict), then the first-match loop. -/
def extract_metric (row : Option Row) (keywords : List String) : Option PyFloat :=
  match row with
  | none => none
  | some r => if r.isEmpty then none else extractGo keywords r

/-- `pick_by_keywords` (lines 51–59): the same loop, without the emptiness
guard. -/
def pick_by_keywords (latest : Row) (keywords : List String) : Option PyFloat :=
  extractGo keywords latest

/-- `safe_div` (lines 172–177): `None` numerator or denominator → `None`;
denominator `== 0` → `None`; otherwise the quotient. -/
def safe_div (numerator denominator : Option PyFloat) : Option PyFloat :=
  match numerator, denominator with
  | none, _ => none
  | _, none => none
  | some n, some d =>
    if d = PyFloat.finite 0 then none else some (pyDiv n d)

/-- First value of `f` on the list that is `some` (`List.findSome?`, spelled
out for predictable rewriting). -/
def firstSome? {α β : Type} (f : α → Option β) : List α → Option β
  | [] => none
  | a :: l =>
    match f a with
    | some b => some b
    | none => firstSome? f l

/-- Filter, spelled out for predictable rewriting. -/
def filterL {α : Type} (p : α → Bool) : List α → List α
  | [] => []
  | a :: l => if p a then a :: filterL p l else filterL p l

/-- Zip, spelled out for predictable rewriting. -/
def zipL {α β : Type} : List α → List β → List (α × β)
  | [], _ => []
  | _, [] => []
  | a :: as, b :: bs => (a, b) :: zipL as bs

/-- String membership in a list of column names. -/
def memL (c : String) : List String → Bool
  | [] => false
  | x :: l => x = c || memL c l

/-- Last element of a list, if any. -/
def last? {α : Type} : List α → Option α
  | [] => none
  | [a] => some a
  | _ :: b :: l => last? (b :: l)

/-- Index of a column name in the column list. -/
def colIndex (c : String) : List String → Option ℕ
  | [] => none
  | x :: l => if x = c then some 0 else (colIndex c l).map (· + 1)

/-- `row.get(col)`: the dict lookup, Python `None` when absent. -/
def rowGet : Row → String → RawVal
  | [], _ => RawVal.pynone
  | (k, v) :: rest, c => if k = c then v else rowGet rest c

/-- Model of a pandas DataFrame: a fixed column order plus rows of cells
aligned with the columns. -/
structure DataFrame where
  cols : List String
  rows : List (List RawVal)
deriving DecidableEq

/-- pandas `df.empty`: true iff either axis has length 0. -/
def DataFrame.isEmptyDf (df : DataFrame) : Bool := df.rows.isEmpty || df.cols.isEmpty

/-- Cell of `row` at column index `i` (`.pynone` out of range). -/
def cellAt (row : List RawVal) (i : ℕ) : RawVal := row.getD i RawVal.pynone

/-- Three-way comparison on ℚ. -/
def compareQ (a b : ℚ) : Ordering := if a < b then .lt else if b < a then .gt else .eq

/-- Three-way comparison on strings (code-point lexicographic, as in Python). -/
def compareStr (a b : String) : Ordering := if a < b then .lt else if b < a then .gt else .eq

/-- Total sort-key order on floats as pandas ranks them in an ascending
`sort_values`: -inf < finite < +inf, with NaN placed last
(`na_position='last'`). -/
def pyFloatCompare : PyFloat → PyFloat → Ordering
  | .finite a, .finite b => compareQ a b
  | .ninf, .ninf => .eq
  | .ninf, _ => .lt
  | _, .ninf => .gt
  | .nan, .nan => .eq
  | _, .nan => .lt
  | .nan, _ => .gt
  | .inf, .inf => .eq
  | .inf, _ => .gt
  | _, .inf => .lt

/-- Comparison of two raw cells as pandas orders them in `sort_values` on an
object column: numbers with numbers, strings with strings; a mixed pair or a
`None` is unorderable — the model of the `TypeError` that makes `sort_values`
raise. -/
def rawCompare : RawVal → RawVal → Option Ordering
  | .num a, .num b => some (pyFloatCompare a b)
  | .str a, .str b => some (compareStr a b)
  | _, _ => none

/-- `a ≤ b` on cells assumed comparable (an unorderable pair yields `true`;
only used under the `keysSortable` check). -/
def rawLe (a b : RawVal) : Bool :=
  match rawCompare a b with
  | some .gt => false
  | _ => true

/-- All sort keys mutually comparable: the model of `sort_values`
succeeding. -/
def keysSortable (ks : List RawVal) : Bool :=
  ks.all (fun a => ks.all (fun b => (rawCompare a b).isSome))

/-- Stable insertion of a row into a list sorted ascending by column `i`. -/
def insertRow (i : ℕ) (r : List RawVal) : List (List RawVal) → List (List RawVal)
  | [] => [r]
  | s :: rest =>
    if rawLe (cellAt r i) (cellAt s i) then r :: s :: rest else s :: insertRow i r rest

/-- Stable ascending sort of the rows by column `i` (pandas' default
quicksort leaves the order of equal keys unspecified; we model the stable
choice). -/
def sortRows (i : ℕ) : List (List RawVal) → List (List RawVal)
  | [] => []
  | r :: rest => insertRow i r (sortRows i rest)

/-- `df.sort_values(col)`: `.error` models the raised `KeyError`/`TypeError`
when the column is missing or its values are not mutually comparable. -/
def sortValues (df : DataFrame) (col : String) : Except Unit (List (List RawVal)) :=
  match colIndex col df.cols with
  | none => .error ()
  | some i =>
    if keysSortable (df.rows.map (fun r => cellAt r i)) then .ok (sortRows i df.rows)
    else .error ()

/-- `series.to_dict()` of a row, using the frame's column order. -/
def rowToDict (df : DataFrame) (r : List RawVal) : Row := zipL df.cols r

/-- `get_latest_row` (lines 118–134): `None`/empty → `None`; sort by
`REPORT_DATE` when that column exists; on failure (or no such column) sort by
the first column; if that also fails, the frame's existing last row. -/
def get_latest_row (df : Option DataFrame) : Option Row :=
  match df with
  | none => none
  | some df =>
    if df.isEmptyDf then none
    else
      match (if memL ("REPORT_DATE") df.cols then sortValues df ("REPORT_DATE")
             else Except.error ()) with
      | .ok sorted => (last? sorted).map (rowToDict df)
      | .error _ =>
        match sortValues df (df.cols.headD ("")) with
        | .ok sorted => (last? sorted).map (rowToDict df)
        | .error _ => (last? df.rows).map (rowToDict df)

/-- Python `str()` of a raw cell, as applied to the 指标 (metric-name) column
by `extract_from_abstract`. Metric names are strings in practice; the decimal
formatting of floats is abbreviated (never keyword-matched in the claims). -/
def pyStr : RawVal → String
  | .pynone => "None"
  | .str s => s
  | .num .inf => "inf"
  | .num .ninf => "-inf"
  | .num .nan => "nan"
  | .num (.finite q) => toString q.num ++ "/" ++ toString q.den

/-- Stable insertion for a descending string sort. -/
def insertDesc (a : String) : List String → List String
  | [] => [a]
  | b :: l => if b < a then a :: b :: l else b :: insertDesc a l

/-- `sorted(xs, reverse=True)` on strings. -/
def sortStrDesc : List String → List String
  | [] => []
  | a :: l => insertDesc a (sortStrDesc l)

/-- `extract_from_abstract` (lines 150–169): in the pivoted abstract table,
take the first row whose 指标 cell keyword-matches, then the first
date-column value (date labels in descending lexical order) that sanitizes;
any raised error (e.g. a missing 指标 column) is caught and yields `None`. -/
def extract_from_abstract (df : Option DataFrame) (keywords : List String) : Option PyFloat :=
  match df with
  | none => none
  | some df =>
    if df.isEmptyDf then none
    else
      match colIndex ("指标") df.cols with
      | none => none
      | some i =>
        let cands := filterL (fun r => kwMatch keywords (pyStr (cellAt r i))) df.rows
        match cands.head? with
        | none => none
        | some r =>
          let row := rowToDict df r
          let date_cols := filterL (fun c => !(c = ("选项") || c = ("指标"))) df.cols
          firstSome? (fun c => safe_float (rowGet row c)) (sortStrDesc date_cols)

/-- The output record (the `result` dict of `main`, lines 246–264): a fixed
set of fields, numeric fields starting at the 0 sentinel, `risk_level` at the
initial default `"中等"`. -/
structure ResultRec where
  pe : PyFloat := .finite 0
  pe_ttm : PyFloat := .finite 0
  pb : PyFloat := .finite 0
  roe : PyFloat := .finite 0
  roa : PyFloat := .finite 0
  growth : PyFloat := .finite 0
  net_margin : PyFloat := .finite 0
  gross_margin : PyFloat := .finite 0
  debt_ratio : PyFloat := .finite 0
  current_ratio : PyFloat := .finite 0
  quick_ratio : PyFloat := .finite 0
  ps : PyFloat := .finite 0
  market_cap : PyFloat := .finite 0
  fundamental_score : PyFloat := .finite 0
  valuation_score : PyFloat := .finite 0
  growth_score : PyFloat := .finite 0
  risk_level : String := "中等"
  error : Option String := none
deriving DecidableEq

/-- Truthiness of an optional row (`and is_row`): `None` and the empty dict
are falsy. -/
def rowTruthy : Option Row → Bool
  | none => false
  | some r => !r.isEmpty

/-- `x or 0` on an optional float (line 306: `extract_metric(...) or 0`). -/
def pyOrZero : Option PyFloat → PyFloat
  | none => .finite 0
  | some v => if pyTruthy v then v else .finite 0

/-- `val / 100 if abs(val) > 1 else val` (line 349, also line 47). -/
def yoyNormalize (v : PyFloat) : PyFloat :=
  if pyLt (.finite 1) (pyAbs v) then pyDiv v (.finite 100) else v

/-- `raw / 100 if abs(raw) > 10 else raw` (lines 229–231). -/
def emNormalize (v : PyFloat) : PyFloat :=
  if pyLt (.finite 10) (pyAbs v) then pyDiv v (.finite 100) else v

/-- Python `min(a, b)`: `b` if `b < a` else `a`. -/
def pyMin (a b : PyFloat) : PyFloat := if pyLt b a then b else a

/-- `if pe_val is not None: result["pe"] = pe_val` (line 352). -/
def setPe : Option PyFloat → ResultRec → ResultRec
  | some v, r => { r with pe := v }
  | none, r => r

/-- Line 354 (`pe_ttm`). -/
def setPeTtm : Option PyFloat → ResultRec → ResultRec
  | some v, r => { r with pe_ttm := v }
  | none, r => r

/-- Line 356 (`pb`). -/
def setPb : Option PyFloat → ResultRec → ResultRec
  | some v, r => { r with pb := v }
  | none, r => r

/-- Line 358 (`roe`). -/
def setRoe : Option PyFloat → ResultRec → ResultRec
  | some v, r => { r with roe := v }
  | none, r => r

/-- Line 360 (`roa`). -/
def setRoa : Option PyFloat → ResultRec → ResultRec
  | some v, r => { r with roa := v }
  | none, r => r

/-- Line 362 (`gross_margin`). -/
def setGrossMargin : Option PyFloat → ResultRec → ResultRec
  | some v, r => { r with gross_margin := v }
  | none, r => r

/-- Line 364 (`net_margin`). -/
def setNetMargin : Option PyFloat → ResultRec → ResultRec
  | some v, r => { r with net_margin := v }
  | none, r => r

/-- Line 366 (`market_cap`). -/
def setMarketCap : Option PyFloat → ResultRec → ResultRec
  | some v, r => { r with market_cap := v }
  | none, r => r

/-- Line 368 (`growth`). -/
def setGrowth : Option PyFloat → ResultRec → ResultRec
  | some v, r => { r with growth := v }
  | none, r => r

/-- Line 370: `result["debt_ratio"] = debt_ratio * 100`. -/
def setDebtPct : Option PyFloat → ResultRec → ResultRec
  | some v, r => { r with debt_ratio := pyMul v (.finite 100) }
  | none, r => r

/-- Line 372 (`current_ratio`). -/
def setCurrentR : Option PyFloat → ResultRec → ResultRec
  | some v, r => { r with current_ratio := v }
  | none, r => r

/-- Line 374 (`quick_ratio`). -/
def setQuickR : Option PyFloat → ResultRec → ResultRec
  | some v, r => { r with quick_ratio := v }
  | none, r => r

/-- Line 376 (`ps`). -/
def setPs : Option PyFloat → ResultRec → ResultRec
  | some v, r => { r with ps := v }
  | none, r => r

/-- The four statement tables of one invocation (an `Option DataFrame` is
what the akshare call returned; `none` is Python `None`). -/
structure StatementTables where
  abstract : Option DataFrame
  balance : Option DataFrame
  income : Option DataFrame
  cashflow : Option DataFrame
deriving DecidableEq

/-- Lines 278–381 of `main`: the statement-data phase. `.error e` models any
of the four fetches raising with message `e` (the exception aborts the phase
before any field is assigned, so the phase is all-or-nothing); on success the
resolution and assignment block runs. Returns the updated record together
with `revenue_val`, which outlives the phase for the late PS recomputation.
(`main_row` and `cf_row` are computed by the source but never used, so they
are omitted.) -/
def statementPhase : Except String StatementTables → ResultRec → ResultRec × Option PyFloat
  | .error e, result => ({ result with error := some (("akshare fetch failed: ") ++ e) }, none)
  | .ok t, result =>
    let bs_row := get_latest_row t.balance
    let is_row := get_latest_row t.income
    let roe_val := extract_from_abstract t.abstract [("净资产收益率"), ("roe")]
    let roa_val := extract_from_abstract t.abstract [("总资产报酬率"), ("roa")]
    let gross_margin_val := extract_from_abstract t.abstract [("毛利率")]
    let net_margin_val := extract_from_abstract t.abstract [("销售净利率"), ("净利率")]
    let market_cap_val := extract_from_abstract t.abstract [("总市值"), ("市值"), ("market_cap")]
    let growth_val := extract_from_abstract t.abstract
      [("净利润同比增长"), ("净利润同比增长率"), ("归母净利润同比增长")]
    let pe_val : Option PyFloat := none
    let pb_val : Option PyFloat := none
    let pe_ttm_val : Option PyFloat := none
    let total_assets := extract_metric bs_row [("资产总计"), ("总资产"), ("total_assets")]
    let total_liab := extract_metric bs_row [("负债合计"), ("总负债"), ("total_liabilities")]
    let current_assets := extract_metric bs_row
      [("流动资产合计"), ("流动资产"), ("total_current_assets")]
    let current_liab := extract_metric bs_row [("流动负债合计"), ("流动负债"), ("total_current_liab")]
    let inventory := pyOrZero (extract_metric bs_row [("存货"), ("库存"), ("inventory")])
    let debt_ratio := safe_div total_liab total_assets
    let current_ratio := safe_div current_assets current_liab
    let quick_ratio := safe_div
      (match current_assets with
       | some ca => some (pySub ca inventory)
       | none => none)
      current_liab
    let revenue_val := extract_metric is_row
      [("营业总收入"), ("营业收入"), ("total_operate_income"), ("operate_income")]
    let ps_val := safe_div market_cap_val revenue_val
    let roeRoa :=
      if (roe_val = none ∨ roa_val = none) ∧ rowTruthy is_row then
        let net_profit := extract_metric is_row
          [("净利润"), ("归母净利润"), ("归属于母公司所有者的净利润"), ("parent_netprofit"), ("netprofit")]
        let roe2 :=
          if roe_val = none then
            (safe_div net_profit (extract_metric bs_row
              [("股东权益合计"), ("归属于母公司股东权益合计"), ("total_parent_equity")])).map
              (fun v => pyMul v (.finite 100))
          else roe_val
        let roa2 :=
          if roa_val = none then
            (safe_div net_profit total_assets).map (fun v => pyMul v (.finite 100))
          else roa_val
        (roe2, roa2)
      else (roe_val, roa_val)
    let roe_val := roeRoa.1
    let roa_val := roeRoa.2
    let gross_margin_val :=
      if gross_margin_val = none ∧ rowTruthy is_row ∧ optTruthy revenue_val then
        match extract_metric is_row [("营业成本"), ("operate_cost")], revenue_val with
        | some oc, some rv =>
          (safe_div (some (pySub rv oc)) revenue_val).map (fun v => pyMul v (.finite 100))
        | _, _ => gross_margin_val
      else gross_margin_val
    let net_margin_val :=
      if net_margin_val = none ∧ rowTruthy is_row ∧ optTruthy revenue_val then
        (safe_div (extract_metric is_row
          [("净利润"), ("归母净利润"), ("归属于母公司所有者的净利润"), ("parent_netprofit"), ("netprofit")])
          revenue_val).map (fun v => pyMul v (.finite 100))
      else net_margin_val
    let growth_val :=
      if growth_val = none ∧ rowTruthy is_row then
        (extract_metric is_row
          [("parent_netprofit_yoy"), ("netprofit_yoy"), ("total_operate_income_yoy"),
           ("operate_income_yoy")]).map yoyNormalize
      else growth_val
    let result := setPe pe_val result
    let result := setPeTtm pe_ttm_val result
    let result := setPb pb_val result
    let result := setRoe roe_val result
    let result := setRoa roa_val result
    let result := setGrossMargin gross_margin_val result
    let result := setNetMargin net_margin_val result
    let result := setMarketCap market_cap_val result
    let result := setGrowth growth_val result
    let result := setDebtPct debt_ratio result
    let result := setCurrentR current_ratio result
    let result := setQuickR quick_ratio result
    let result := setPs ps_val result
    (result, revenue_val)

/-- The fields of the eastmoney HTTP payload (`data` object). -/
structure EmResponse where
  f162 : RawVal
  f167 : RawVal
  f116 : RawVal
deriving DecidableEq

/-- The dict built by `fetch_quote_from_eastmoney`. -/
structure Quote where
  pe : Option PyFloat := none
  pb : Option PyFloat := none
  market_cap : Option PyFloat := none
deriving DecidableEq

/-- `fetch_quote_from_eastmoney` (lines 197–234) applied to the HTTP payload:
`none` input covers both a failed `import requests` and a falsy `data`
object; f162/f167 are scaled down by 100 when their magnitude exceeds 10,
f116 is used as-is; an all-empty dict is returned as `None`. -/
def fetch_quote_from_eastmoney : Option EmResponse → Option Quote
  | none => none
  | some d =>
    let q : Quote :=
      { pe := (safe_float d.f162).map emNormalize
        pb := (safe_float d.f167).map emNormalize
        market_cap := safe_float d.f116 }
    if q.pe = none ∧ q.pb = none ∧ q.market_cap = none then none else some q

/-- `col in rec` for a row. -/
def memRow (c : String) : Row → Bool
  | [] => false
  | (k, _) :: rest => k = c || memRow c rest

/-- One candidate loop of `fill_from_spot` (lines 78–98): the first candidate
column present in the row whose value sanitizes. -/
def spotPick : Row → List String → Option PyFloat
  | _, [] => none
  | rcd, c :: cs =>
    if memRow c rcd then
      match safe_float (rowGet rcd c) with
      | some v => some v
      | none => spotPick rcd cs
    else spotPick rcd cs

/-- Lines 78–83 of `fill_from_spot`: the PE candidate loop (each iteration
requires `result.get("pe") == 0`, so the loop as a whole is guarded by it). -/
def spotFillPe (rcd : Row) (r : ResultRec) : ResultRec :=
  if r.pe = PyFloat.finite 0 then
    match spotPick rcd [("市盈率-动态"), ("市盈率(动态)"), ("市盈率")] with
    | some v => { r with pe := v }
    | none => r
  else r

/-- Lines 85–90: the PB candidate loop. -/
def spotFillPb (rcd : Row) (r : ResultRec) : ResultRec :=
  if r.pb = PyFloat.finite 0 then
    match spotPick rcd [("市净率")] with
    | some v => { r with pb := v }
    | none => r
  else r

/-- Lines 92–98: the market-cap candidate loop; the spot 总市值 is in 亿元 and
is multiplied by 10000. -/
def spotFillMc (rcd : Row) (r : ResultRec) : ResultRec :=
  if r.market_cap = PyFloat.finite 0 then
    match spotPick rcd [("总市值"), ("总市值(亿元)")] with
    | some v => { r with market_cap := pyMul v (.finite 10000) }
    | none => r
  else r

/-- Lines 108–109: the HTTP-quote PE write, only to a sentinel field. -/
def httpFillPe (q : Quote) (r : ResultRec) : ResultRec :=
  match q.pe with
  | some v => if r.pe = PyFloat.finite 0 then { r with pe := v } else r
  | none => r

/-- Lines 110–111: the HTTP-quote PB write. -/
def httpFillPb (q : Quote) (r : ResultRec) : ResultRec :=
  match q.pb with
  | some v => if r.pb = PyFloat.finite 0 then { r with pb := v } else r
  | none => r

/-- Lines 112–113: the HTTP-quote market-cap write (no rescaling here). -/
def httpFillMc (q : Quote) (r : ResultRec) : ResultRec :=
  match q.market_cap with
  | some v => if r.market_cap = PyFloat.finite 0 then { r with market_cap := v } else r
  | none => r

/-- Whether control leaves `fill_from_spot` after the spot attempt (an
explicit `return` in the source) or falls through to the HTTP fallback. -/
inductive SpotOutcome where
  | earlyReturn (r : ResultRec)
  | fallthrough (r : ResultRec)

/-- Lines 64–101 of `fill_from_spot`: the akshare spot-snapshot attempt.
`spot = .error` models the import or fetch raising (caught at line 99;
control continues to the HTTP fallback); the source\'s early `return`s (lines
69 and 72) skip the HTTP fallback. -/
def spotPhase (spot : Except Unit (Option DataFrame)) (symbol : String) (result : ResultRec) :
    SpotOutcome :=
  match spot with
  | .error _ => .fallthrough result
  | .ok none => .earlyReturn result
  | .ok (some df) =>
    if df.isEmptyDf then .earlyReturn result
    else
      match colIndex ("代码") df.cols with
      | none => .fallthrough result
      | some i =>
        match (filterL (fun r => decide (cellAt r i = RawVal.str symbol)) df.rows).head? with
        | none => .earlyReturn result
        | some r =>
          let rcd := rowToDict df r
          .fallthrough (spotFillMc rcd (spotFillPb rcd (spotFillPe rcd result)))

/-- Lines 103–115 of `fill_from_spot`: the direct eastmoney HTTP fallback,
run only when a key field is still at the sentinel; only sentinel fields are
written. `em = .error` models `requests.get`/`.json()` raising (caught by the
`except: return`). -/
def httpPhase (em : Except Unit (Option EmResponse)) (result : ResultRec) : ResultRec :=
  if result.pe = PyFloat.finite 0 ∨ result.pb = PyFloat.finite 0 ∨
      result.market_cap = PyFloat.finite 0 then
    match em with
    | .error _ => result
    | .ok resp =>
      match fetch_quote_from_eastmoney resp with
      | none => result
      | some q => httpFillMc q (httpFillPb q (httpFillPe q result))
  else result

/-- `fill_from_spot` (lines 62–115). -/
def fill_from_spot (symbol : String) (spot : Except Unit (Option DataFrame))
    (em : Except Unit (Option EmResponse)) (result : ResultRec) : ResultRec :=
  match spotPhase spot symbol result with
  | .earlyReturn r => r
  | .fallthrough r => httpPhase em r

/-- Lines 391–395 of `main`: the late PS recomputation once market cap may
have been filled (`result["ps"]` can never be Python `None` — it is
initialized to 0 and only ever assigned floats — so only the `== 0` disjunct
of the source\'s guard is live). -/
def psRecompute (revenue_val : Option PyFloat) (result : ResultRec) : ResultRec :=
  if result.ps = PyFloat.finite 0 ∧ optTruthy revenue_val then
    match safe_div (some result.market_cap) revenue_val with
    | some v => { result with ps := v }
    | none => result
  else result

/-- Lines 397–423 of `main`: the three scores (baseline 6.0, fixed bonuses,
capped at 10) and the risk tier from `debt_ratio`. -/
def scorePhase (result : ResultRec) : ResultRec :=
  let fundamental_score : PyFloat := .finite 6
  let valuation_score : PyFloat := .finite 6
  let growth_score : PyFloat := .finite 6
  let valuation_score :=
    if pyTruthy result.pe && pyLt result.pe (.finite 10) then pyAdd valuation_score (.finite 1)
    else valuation_score
  let valuation_score :=
    if pyTruthy result.pb && pyLt result.pb (.finite (6/5)) then
      pyAdd valuation_score (.finite (1/2))
    else valuation_score
  let fundamental_score :=
    if pyTruthy result.roe && pyLt (.finite 10) result.roe then
      pyAdd fundamental_score (.finite 1)
    else fundamental_score
  let growth_score :=
    if pyTruthy result.growth && pyLt (.finite (1/10)) result.growth then
      pyAdd growth_score (.finite 1)
    else growth_score
  let debt_ratio_val := if pyTruthy result.debt_ratio then result.debt_ratio else .finite 0
  let risk_level :=
    if pyLt (.finite 70) debt_ratio_val then ("高")
    else if pyLt (.finite 50) debt_ratio_val then ("中")
    else ("低")
  { result with
    fundamental_score := pyMin fundamental_score (.finite 10)
    valuation_score := pyMin valuation_score (.finite 10)
    growth_score := pyMin growth_score (.finite 10)
    risk_level := risk_level }

/-- One invocation\'s collaborator behavior. -/
structure Env where
  /-- `some msg`: `import akshare` in `main` raises with message `msg`. -/
  akshareImport : Option String
  /-- The four statement tables, or the message of the first fetch that raises. -/
  stmts : Except String StatementTables
  /-- The spot snapshot table (`stock_zh_a_spot_em` result), or a raised error. -/
  spot : Except Unit (Option DataFrame)
  /-- The eastmoney HTTP payload, or a raised error. -/
  em : Except Unit (Option EmResponse)
  /-- `some msg`: the `fill_from_spot(...)` call escapes with an exception
  (handled at lines 387–389). The source\'s `fill_from_spot` swallows its own
  failures, so this models an exception at the call boundary; when set, the
  call is treated as raising on entry (no field effects). -/
  spotEscape : Option String

/-- Python `s[-6:]` (line 244). -/
def pyLast6 (s : String) : String := String.mk (s.data.drop (s.data.length - 6))

/-- Python `s.strip()` (line 243). -/
def pyStrip (s : String) : String := String.mk (trimL s.data)

/-- `main` (lines 237–425) as a function of the (already JSON-decoded) input
symbol string and the collaborator behavior; the returned record is the JSON
object printed on stdout. -/
def mainRun (env : Env) (inputSymbol : String) : ResultRec :=
  let symbol := pyStrip inputSymbol
  let base_symbol := pyLast6 symbol
  let result : ResultRec := {}
  if symbol = ("") then result
  else
    match env.akshareImport with
    | some e => { result with error := some (("akshare import failed: ") ++ e) }
    | none =>
      let sp := statementPhase env.stmts result
      let result := sp.1
      let revenue_val := sp.2
      let result :=
        if result.pe = PyFloat.finite 0 ∨ result.pb = PyFloat.finite 0 ∨
            result.market_cap = PyFloat.finite 0 then
          match env.spotEscape with
          | some e =>
            { result with
              error :=
                match result.error with
                | some prev =>
                  if prev = ("") then some (("fill_from_spot failed: ") ++ e) else some prev
                | none => some (("fill_from_spot failed: ") ++ e) }
          | none => fill_from_spot base_symbol env.spot env.em result
        else result
      scorePhase (psRecompute revenue_val result)

def dfDates : DataFrame :=
  { cols := [("REPORT_DATE"), ("v")],
    rows := [[.str ("20230331"), .num (.finite 1)],
             [.str ("20230630"), .num (.finite 2)],
             [.str ("20221231"), .num (.finite 3)]] }

def dfAbstract : DataFrame :=
  { cols := [("选项"), ("指标"), ("20230331")],
    rows := [[.str ("成长能力"), .str ("净利润同比增长率"), .str ("15.2")]] }

def spotDfC4 : DataFrame :=
  { cols := [("代码"), ("市盈率-动态"), ("市净率"), ("总市值")],
    rows := [[.str ("600519"), .num (.finite (57/2)), .num (.finite (46/5)),
              .num (.finite 3500000)]] }

def envC4 : Env :=
  { akshareImport := none
    stmts := .error ("mock network error")
    spot := .ok (some spotDfC4)
    em := .ok none
    spotEscape := none }


/-- An environment with no data at all: import succeeds, every table is
`None`, no HTTP payload. -/
def envNoData : Env :=
  { akshareImport := none
    stmts := .ok ⟨none, none, none, none⟩
    spot := .ok none
    em := .ok none
    spotEscape := none }

/-- An environment where the statement fetch raises and the spot fallback
call itself also escapes with an exception: two failures in one invocation. -/
def envDoubleFail : Env :=
  { akshareImport := none
    stmts := .error ("statement boom")
    spot := .ok none
    em := .ok none
    spotEscape := some ("spot boom") }

/-- A `REPORT_DATE` table whose date keys mix a number and a string (so the
`REPORT_DATE` sort raises) while the first column is sortable. -/
def dfMixedDates : DataFrame :=
  { cols := [("A"), ("REPORT_DATE")],
    rows := [[.str ("b"), .num (.finite 1)],
             [.str ("a"), .str ("x")]] }

/-- The spot snapshot of the C4 scenario: symbol 600519 with 市盈率-动态 28.5,
市净率 9.2 and a 总市值 cell of 3,500,000 (the column is in 亿元). -/
def spotDf600519 : DataFrame :=
  { cols := [("代码"), ("市盈率-动态"), ("市净率"), ("总市值")],
    rows := [[.str ("600519"), .num (.finite (57/2)), .num (.finite (46/5)),
              .num (.finite 3500000)]] }

/-- The C4 environment: import succeeds, the statement fetch raises, the spot
snapshot succeeds with `spotDf600519`. -/
def envStmtFail : Env :=
  { akshareImport := none
    stmts := .error ("mock network error")
    spot := .ok (some spotDf600519)
    em := .ok none
    spotEscape := none }

/-- An income-statement table with a `REPORT_DATE` row whose
`parent_netprofit_yoy` cell is the raw string "15.2". -/
def dfIncomeYoy : DataFrame :=
  { cols := [("REPORT_DATE"), ("parent_netprofit_yoy")],
    rows := [[.str ("20230630"), .str ("15.2")]] }

/-- The C1 environment: only the abstract table is available; its growth row
holds the raw cell "15.2". -/
def envAbstractGrowth : Env :=
  { akshareImport := none
    stmts := .ok ⟨some dfAbstract, none, none, none⟩
    spot := .ok none
    em := .ok none
    spotEscape := none }

/-- A record with several fields already resolved, used to witness the
no-overwrite property at concrete values. -/
def rC2 : ResultRec :=
  { pe := .finite 7, pb := .finite 2, market_cap := .finite 5, ps := .finite 3 }

/-! ### Helper lemmas: record-update descriptions of the assignment steps -/

theorem setPe_eq (v : Option PyFloat) (r : ResultRec) :
    setPe v r = { r with pe := v.getD r.pe } := by cases v <;> rfl

theorem setPeTtm_eq (v : Option PyFloat) (r : ResultRec) :
    setPeTtm v r = { r with pe_ttm := v.getD r.pe_ttm } := by cases v <;> rfl

theorem setPb_eq (v : Option PyFloat) (r : ResultRec) :
    setPb v r = { r with pb := v.getD r.pb } := by cases v <;> rfl

theorem setRoe_eq (v : Option PyFloat) (r : ResultRec) :
    setRoe v r = { r with roe := v.getD r.roe } := by cases v <;> rfl

theorem setRoa_eq (v : Option PyFloat) (r : ResultRec) :
    setRoa v r = { r with roa := v.getD r.roa } := by cases v <;> rfl

theorem setGrossMargin_eq (v : Option PyFloat) (r : ResultRec) :
    setGrossMargin v r = { r with gross_margin := v.getD r.gross_margin } := by cases v <;> rfl

theorem setNetMargin_eq (v : Option PyFloat) (r : ResultRec) :
    setNetMargin v r = { r with net_margin := v.getD r.net_margin } := by cases v <;> rfl

theorem setMarketCap_eq (v : Option PyFloat) (r : ResultRec) :
    setMarketCap v r = { r with market_cap := v.getD r.market_cap } := by cases v <;> rfl

theorem setGrowth_eq (v : Option PyFloat) (r : ResultRec) :
    setGrowth v r = { r with growth := v.getD r.growth } := by cases v <;> rfl

theorem setDebtPct_eq (v : Option PyFloat) (r : ResultRec) :
    setDebtPct v r = { r with debt_ratio := (v.map (fun x => pyMul x (.finite 100))).getD r.debt_ratio } := by
  cases v <;> rfl

theorem setCurrentR_eq (v : Option PyFloat) (r : ResultRec) :
    setCurrentR v r = { r with current_ratio := v.getD r.current_ratio } := by cases v <;> rfl

theorem setQuickR_eq (v : Option PyFloat) (r : ResultRec) :
    setQuickR v r = { r with quick_ratio := v.getD r.quick_ratio } := by cases v <;> rfl

theorem setPs_eq (v : Option PyFloat) (r : ResultRec) :
    setPs v r = { r with ps := v.getD r.ps } := by cases v <;> rfl

theorem spotFillPe_eq (rcd : Row) (r : ResultRec) :
    spotFillPe rcd r = { r with pe :=
      (if r.pe = PyFloat.finite 0
       then (spotPick rcd [("市盈率-动态"), ("市盈率(动态)"), ("市盈率")]).getD r.pe
       else r.pe) } := by
  unfold spotFillPe
  by_cases h : r.pe = PyFloat.finite 0
  · simp only [if_pos h]
    cases spotPick rcd [("市盈率-动态"), ("市盈率(动态)"), ("市盈率")] <;> simp
  · simp only [if_neg h]

theorem spotFillPb_eq (rcd : Row) (r : ResultRec) :
    spotFillPb rcd r = { r with pb :=
      (if r.pb = PyFloat.finite 0 then (spotPick rcd [("市净率")]).getD r.pb else r.pb) } := by
  unfold spotFillPb
  by_cases h : r.pb = PyFloat.finite 0
  · simp only [if_pos h]
    cases spotPick rcd [("市净率")] <;> simp
  · simp only [if_neg h]

theorem spotFillMc_eq (rcd : Row) (r : ResultRec) :
    spotFillMc rcd r = { r with market_cap :=
      (if r.market_cap = PyFloat.finite 0
       then ((spotPick rcd [("总市值"), ("总市值(亿元)")]).map
              (fun v => pyMul v (.finite 10000))).getD r.market_cap
       else r.market_cap) } := by
  unfold spotFillMc
  by_cases h : r.market_cap = PyFloat.finite 0
  · simp only [if_pos h]
    cases spotPick rcd [("总市值"), ("总市值(亿元)")] <;> simp
  · simp only [if_neg h]

theorem httpFillPe_eq (q : Quote) (r : ResultRec) :
    httpFillPe q r = { r with pe :=
      (if r.pe = PyFloat.finite 0 then q.pe.getD r.pe else r.pe) } := by
  unfold httpFillPe
  cases hq : q.pe with
  | none => simp
  | some v => by_cases h : r.pe = PyFloat.finite 0 <;> simp [h]

theorem httpFillPb_eq (q : Quote) (r : ResultRec) :
    httpFillPb q r = { r with pb :=
      (if r.pb = PyFloat.finite 0 then q.pb.getD r.pb else r.pb) } := by
  unfold httpFillPb
  cases hq : q.pb with
  | none => simp
  | some v => by_cases h : r.pb = PyFloat.finite 0 <;> simp [h]

theorem httpFillMc_eq (q : Quote) (r : ResultRec) :
    httpFillMc q r = { r with market_cap :=
      (if r.market_cap = PyFloat.finite 0 then q.market_cap.getD r.market_cap
       else r.market_cap) } := by
  unfold httpFillMc
  cases hq : q.market_cap with
  | none => simp
  | some v => by_cases h : r.market_cap = PyFloat.finite 0 <;> simp [h]

/-! ### Helper lemmas: shapes of the fallback phases -/

theorem spotPhase_spec (sp : Except Unit (Option DataFrame)) (sym : String) (r : ResultRec) :
    spotPhase sp sym r = SpotOutcome.earlyReturn r ∨
    spotPhase sp sym r = SpotOutcome.fallthrough r ∨
    ∃ rcd : Row, spotPhase sp sym r
      = SpotOutcome.fallthrough (spotFillMc rcd (spotFillPb rcd (spotFillPe rcd r))) := by
  unfold spotPhase
  split
  · exact Or.inr (Or.inl rfl)
  · exact Or.inl rfl
  · split
    · exact Or.inl rfl
    · split
      · exact Or.inr (Or.inl rfl)
      · split
        · exact Or.inl rfl
        · exact Or.inr (Or.inr ⟨_, rfl⟩)

theorem httpPhase_spec (em : Except Unit (Option EmResponse)) (r : ResultRec) :
    httpPhase em r = r ∨
    ∃ q : Quote, httpPhase em r = httpFillMc q (httpFillPb q (httpFillPe q r)) := by
  unfold httpPhase
  split
  · split
    · exact Or.inl rfl
    · split
      · exact Or.inl rfl
      · exact Or.inr ⟨_, rfl⟩
  · exact Or.inl rfl

theorem fill_from_spot_spec (sym : String) (sp : Except Unit (Option DataFrame))
    (em : Except Unit (Option EmResponse)) (r : ResultRec) :
    ∃ r1 : ResultRec,
      (r1 = r ∨ ∃ rcd, r1 = spotFillMc rcd (spotFillPb rcd (spotFillPe rcd r))) ∧
      (fill_from_spot sym sp em r = r1 ∨
       ∃ q, fill_from_spot sym sp em r = httpFillMc q (httpFillPb q (httpFillPe q r1))) := by
  unfold fill_from_spot
  rcases spotPhase_spec sp sym r with h | h | ⟨rcd, h⟩ <;> rw [h]
  · exact ⟨r, Or.inl rfl, Or.inl (by simp)⟩
  · refine ⟨r, Or.inl rfl, ?_⟩
    have := httpPhase_spec em r
    simpa using this
  · refine ⟨_, Or.inr ⟨rcd, rfl⟩, ?_⟩
    have := httpPhase_spec em (spotFillMc rcd (spotFillPb rcd (spotFillPe rcd r)))
    simpa using this

/-! ### Helper lemmas: field preservation by the fallback steps -/

theorem fill_from_spot_frame (sym : String) (sp : Except Unit (Option DataFrame))
    (em : Except Unit (Option EmResponse)) (r : ResultRec) :
    (fill_from_spot sym sp em r).pe_ttm = r.pe_ttm ∧
    (fill_from_spot sym sp em r).roe = r.roe ∧
    (fill_from_spot sym sp em r).roa = r.roa ∧
    (fill_from_spot sym sp em r).growth = r.growth ∧
    (fill_from_spot sym sp em r).net_margin = r.net_margin ∧
    (fill_from_spot sym sp em r).gross_margin = r.gross_margin ∧
    (fill_from_spot sym sp em r).debt_ratio = r.debt_ratio ∧
    (fill_from_spot sym sp em r).current_ratio = r.current_ratio ∧
    (fill_from_spot sym sp em r).quick_ratio = r.quick_ratio ∧
    (fill_from_spot sym sp em r).ps = r.ps ∧
    (fill_from_spot sym sp em r).fundamental_score = r.fundamental_score ∧
    (fill_from_spot sym sp em r).valuation_score = r.valuation_score ∧
    (fill_from_spot sym sp em r).growth_score = r.growth_score ∧
    (fill_from_spot sym sp em r).risk_level = r.risk_level ∧
    (fill_from_spot sym sp em r).error = r.error := by
  obtain ⟨r1, h1, h2⟩ := fill_from_spot_spec sym sp em r
  have hr1 : r1.pe_ttm = r.pe_ttm ∧ r1.roe = r.roe ∧ r1.roa = r.roa ∧ r1.growth = r.growth ∧
      r1.net_margin = r.net_margin ∧ r1.gross_margin = r.gross_margin ∧
      r1.debt_ratio = r.debt_ratio ∧ r1.current_ratio = r.current_ratio ∧
      r1.quick_ratio = r.quick_ratio ∧ r1.ps = r.ps ∧
      r1.fundamental_score = r.fundamental_score ∧ r1.valuation_score = r.valuation_score ∧
      r1.growth_score = r.growth_score ∧ r1.risk_level = r.risk_level ∧ r1.error = r.error := by
    rcases h1 with rfl | ⟨rcd, rfl⟩
    · exact ⟨rfl, rfl, rfl, rfl, rfl, rfl, rfl, rfl, rfl, rfl, rfl, rfl, rfl, rfl, rfl⟩
    · simp [spotFillPe_eq, spotFillPb_eq, spotFillMc_eq]
  rcases h2 with heq | ⟨q, heq⟩ <;> rw [heq]
  · exact hr1
  · simp only [httpFillPe_eq, httpFillPb_eq, httpFillMc_eq]
    exact hr1

theorem fill_from_spot_keeps_pe (sym : String) (sp : Except Unit (Option DataFrame))
    (em : Except Unit (Option EmResponse)) (r : ResultRec) (h : r.pe ≠ PyFloat.finite 0) :
    (fill_from_spot sym sp em r).pe = r.pe := by
  obtain ⟨r1, h1, h2⟩ := fill_from_spot_spec sym sp em r
  have hp : r1.pe = r.pe := by
    rcases h1 with rfl | ⟨rcd, rfl⟩
    · rfl
    · simp only [spotFillPe_eq, spotFillPb_eq, spotFillMc_eq]
      simp [h]
  rcases h2 with heq | ⟨q, heq⟩ <;> rw [heq]
  · exact hp
  · simp only [httpFillPe_eq, httpFillPb_eq, httpFillMc_eq]
    simp [hp, h]

theorem fill_from_spot_keeps_pb (sym : String) (sp : Except Unit (Option DataFrame))
    (em : Except Unit (Option EmResponse)) (r : ResultRec) (h : r.pb ≠ PyFloat.finite 0) :
    (fill_from_spot sym sp em r).pb = r.pb := by
  obtain ⟨r1, h1, h2⟩ := fill_from_spot_spec sym sp em r
  have hp : r1.pb = r.pb := by
    rcases h1 with rfl | ⟨rcd, rfl⟩
    · rfl
    · simp only [spotFillPe_eq, spotFillPb_eq, spotFillMc_eq]
      simp [h]
  rcases h2 with heq | ⟨q, heq⟩ <;> rw [heq]
  · exact hp
  · simp only [httpFillPe_eq, httpFillPb_eq, httpFillMc_eq]
    simp [hp, h]

theorem fill_from_spot_keeps_mc (sym : String) (sp : Except Unit (Option DataFrame))
    (em : Except Unit (Option EmResponse)) (r : ResultRec)
    (h : r.market_cap ≠ PyFloat.finite 0) :
    (fill_from_spot sym sp em r).market_cap = r.market_cap := by
  obtain ⟨r1, h1, h2⟩ := fill_from_spot_spec sym sp em r
  have hp : r1.market_cap = r.market_cap := by
    rcases h1 with rfl | ⟨rcd, rfl⟩
    · rfl
    · simp only [spotFillPe_eq, spotFillPb_eq, spotFillMc_eq]
      simp [h]
  rcases h2 with heq | ⟨q, heq⟩ <;> rw [heq]
  · exact hp
  · simp only [httpFillPe_eq, httpFillPb_eq, httpFillMc_eq]
    simp [hp, h]

theorem psRecompute_spec (rv : Option PyFloat) (r : ResultRec) :
    psRecompute rv r = r ∨
    (r.ps = PyFloat.finite 0 ∧ ∃ v, psRecompute rv r = { r with ps := v }) := by
  unfold psRecompute
  split
  · rename_i hc
    split
    · exact Or.inr ⟨hc.1, _, rfl⟩
    · exact Or.inl rfl
  · exact Or.inl rfl

theorem psRecompute_keeps_ps (rv : Option PyFloat) (r : ResultRec)
    (h : r.ps ≠ PyFloat.finite 0) : (psRecompute rv r).ps = r.ps := by
  rcases psRecompute_spec rv r with heq | ⟨h0, v, heq⟩
  · rw [heq]
  · exact absurd h0 h

theorem psRecompute_frame (rv : Option PyFloat) (r : ResultRec) :
    (psRecompute rv r).pe = r.pe ∧ (psRecompute rv r).pe_ttm = r.pe_ttm ∧
    (psRecompute rv r).pb = r.pb ∧ (psRecompute rv r).roe = r.roe ∧
    (psRecompute rv r).roa = r.roa ∧ (psRecompute rv r).growth = r.growth ∧
    (psRecompute rv r).net_margin = r.net_margin ∧
    (psRecompute rv r).gross_margin = r.gross_margin ∧
    (psRecompute rv r).debt_ratio = r.debt_ratio ∧
    (psRecompute rv r).current_ratio = r.current_ratio ∧
    (psRecompute rv r).quick_ratio = r.quick_ratio ∧
    (psRecompute rv r).market_cap = r.market_cap ∧
    (psRecompute rv r).fundamental_score = r.fundamental_score ∧
    (psRecompute rv r).valuation_score = r.valuation_score ∧
    (psRecompute rv r).growth_score = r.growth_score ∧
    (psRecompute rv r).risk_level = r.risk_level ∧
    (psRecompute rv r).error = r.error := by
  rcases psRecompute_spec rv r with heq | ⟨h0, v, heq⟩ <;> rw [heq] <;>
    exact ⟨rfl, rfl, rfl, rfl, rfl, rfl, rfl, rfl, rfl, rfl, rfl, rfl, rfl, rfl, rfl, rfl, rfl⟩

theorem scorePhase_frame (r : ResultRec) :
    (scorePhase r).pe = r.pe ∧ (scorePhase r).pe_ttm = r.pe_ttm ∧ (scorePhase r).pb = r.pb ∧
    (scorePhase r).roe = r.roe ∧ (scorePhase r).roa = r.roa ∧
    (scorePhase r).growth = r.growth ∧ (scorePhase r).net_margin = r.net_margin ∧
    (scorePhase r).gross_margin = r.gross_margin ∧ (scorePhase r).debt_ratio = r.debt_ratio ∧
    (scorePhase r).current_ratio = r.current_ratio ∧
    (scorePhase r).quick_ratio = r.quick_ratio ∧
    (scorePhase r).ps = r.ps ∧ (scorePhase r).market_cap = r.market_cap ∧
    (scorePhase r).error = r.error :=
  ⟨rfl, rfl, rfl, rfl, rfl, rfl, rfl, rfl, rfl, rfl, rfl, rfl, rfl, rfl⟩

theorem statementPhase_error_eq (e : String) (r : ResultRec) :
    statementPhase (.error e) r
      = ({ r with error := some (("akshare fetch failed: ") ++ e) }, none) := rfl

theorem statementPhase_ok_frame (t : StatementTables) (r : ResultRec) :
    ((statementPhase (.ok t) r).1.pe = r.pe) ∧ ((statementPhase (.ok t) r).1.pe_ttm = r.pe_ttm) ∧
    ((statementPhase (.ok t) r).1.pb = r.pb) ∧
    ((statementPhase (.ok t) r).1.fundamental_score = r.fundamental_score) ∧
    ((statementPhase (.ok t) r).1.valuation_score = r.valuation_score) ∧
    ((statementPhase (.ok t) r).1.growth_score = r.growth_score) ∧
    ((statementPhase (.ok t) r).1.risk_level = r.risk_level) ∧
    ((statementPhase (.ok t) r).1.error = r.error) := by
  simp [statementPhase, setPe_eq, setPeTtm_eq, setPb_eq, setRoe_eq, setRoa_eq,
    setGrossMargin_eq, setNetMargin_eq, setMarketCap_eq, setGrowth_eq, setDebtPct_eq,
    setCurrentR_eq, setQuickR_eq, setPs_eq, Option.getD_none]

theorem statementPhase_pe_ttm (st : Except String StatementTables) (r : ResultRec) :
    (statementPhase st r).1.pe_ttm = r.pe_ttm := by
  cases st with
  | error e => rfl
  | ok t => exact (statementPhase_ok_frame t r).2.1

/-! ### C5 -/

/-- **C5.** Every derived-metric division in the pipeline (debt_ratio,
current_ratio, quick_ratio, roe, roa, the margins, ps) goes through
`safe_div`; whenever the numerator or the denominator is absent, or the
denominator equals 0, the result is absent (`none`) — in the embedding the
function is total, so no exception can occur, and the absent result is in
particular neither an infinity nor NaN. -/
theorem C5_safe_div_guarded (numerator denominator : Option PyFloat)
    (h : numerator = none ∨ denominator = none ∨ denominator = some (PyFloat.finite 0)) :
    safe_div numerator denominator = none := by
  rcases h with h | h | h
  · subst h
    cases denominator <;> rfl
  · subst h
    cases numerator <;> rfl
  · subst h
    cases numerator with
    | none => rfl
    | some n => simp [safe_div]

/-- Witness for C5: the concrete division 5 / 0 is absent. -/
theorem C5_safe_div_guarded_witness :
    safe_div (some (PyFloat.finite 5)) (some (PyFloat.finite 0)) = none :=
  C5_safe_div_guarded (some (PyFloat.finite 5)) (some (PyFloat.finite 0))
    (Or.inr (Or.inr rfl))

/-! ### C6 -/

/-- **C6 counterexample.** The claim says the Value Sanitizer returns absent
or a *finite* numeric value for every raw scalar; but CPython `float("inf")`
is infinite and not NaN, so `safe_float` passes it through: the output is
neither absent nor finite. -/
theorem C6_counterexample :
    safe_float (RawVal.str ("inf")) = some PyFloat.inf ∧ PyFloat.inf.isFinite = false := by
  constructor
  · decide
  · rfl

/-- **C6 (amended).** The Value Sanitizer never raises (it is total); it
returns absent for null, for non-numeric/unparseable strings, and for NaN
(whether a NaN float or a string that parses to NaN); otherwise it returns
exactly the parsed value, sign and magnitude preserved — which may be an
infinity for inputs that parse to one. NaN never escapes. -/
theorem C6_safe_float_contract :
    (safe_float RawVal.pynone = none) ∧
    (∀ f : PyFloat, f ≠ PyFloat.nan → safe_float (RawVal.num f) = some f) ∧
    (safe_float (RawVal.num PyFloat.nan) = none) ∧
    (∀ s : String, pyParseFloat s = none → safe_float (RawVal.str s) = none) ∧
    (∀ s : String, pyParseFloat s = some PyFloat.nan → safe_float (RawVal.str s) = none) ∧
    (∀ s : String, ∀ f : PyFloat, pyParseFloat s = some f → f ≠ PyFloat.nan →
      safe_float (RawVal.str s) = some f) ∧
    (∀ v : RawVal, ∀ f : PyFloat, safe_float v = some f → f ≠ PyFloat.nan) := by
  refine ⟨rfl, ?_, rfl, ?_, ?_, ?_, ?_⟩
  · intro f hf
    simp [safe_float, hf]
  · intro s hs
    simp [safe_float, hs]
  · intro s hs
    simp [safe_float, hs]
  · intro s f hs hf
    simp [safe_float, hs, hf]
  · intro v f hv
    cases v with
    | pynone => exact absurd hv (by simp [safe_float])
    | num g =>
      by_cases hg : g = PyFloat.nan
      · subst hg
        exact absurd hv (by simp [safe_float])
      · simp only [safe_float, if_neg hg, Option.some.injEq] at hv
        exact hv ▸ hg
    | str s =>
      cases hp : pyParseFloat s with
      | none => simp [safe_float, hp] at hv
      | some g =>
        by_cases hg : g = PyFloat.nan
        · subst hg
          simp [safe_float, hp] at hv
        · simp only [safe_float, hp, if_neg hg, Option.some.injEq] at hv
          exact hv ▸ hg

/-- Witness for C6 at concrete inputs: the numeric string "15.2" sanitizes to
exactly 15.2, and a NaN float is rejected. -/
theorem C6_safe_float_contract_witness :
    safe_float (RawVal.str ("15.2")) = some (PyFloat.finite (76/5)) :=
  C6_safe_float_contract.2.2.2.2.2.1 ("15.2") (PyFloat.finite (76/5))
    (by simp +decide [pyParseFloat, parseSignedQ, parseUnsignedQ, parseMantissa, parseExp,
          splitFirst, isDigits, digitsVal, lowerL, trimL, charToLower]
        norm_num)
    (by decide)

/-! ### C10 -/

/-- **C10.** On every invocation — any input symbol and any collaborator
behavior — the emitted record's `pe_ttm` equals the 0 sentinel: the statement
phase hard-codes the pe/pe_ttm/pb candidates to `None` (lines 297–299) and
neither quote-fallback phase ever writes `pe_ttm`. -/
theorem C10_pe_ttm_always_zero (env : Env) (inputSymbol : String) :
    (mainRun env inputSymbol).pe_ttm = PyFloat.finite 0 := by
  simp only [mainRun]
  split
  · rfl
  · split
    · rfl
    · rw [(scorePhase_frame _).2.1, (psRecompute_frame _ _).2.1]
      split
      · split
        · exact statementPhase_pe_ttm env.stmts {}
        · rw [fill_from_spot_frame _ env.spot env.em _ |>.1]
          exact statementPhase_pe_ttm env.stmts {}
      · exact statementPhase_pe_ttm env.stmts {}

/-! ### C2 -/

theorem statementPhase_scores (st : Except String StatementTables) (r : ResultRec) :
    (statementPhase st r).1.fundamental_score = r.fundamental_score ∧
    (statementPhase st r).1.valuation_score = r.valuation_score ∧
    (statementPhase st r).1.growth_score = r.growth_score ∧
    (statementPhase st r).1.risk_level = r.risk_level := by
  cases st with
  | error e => exact ⟨rfl, rfl, rfl, rfl⟩
  | ok t =>
    exact ⟨(statementPhase_ok_frame t r).2.2.2.1, (statementPhase_ok_frame t r).2.2.2.2.1,
      (statementPhase_ok_frame t r).2.2.2.2.2.1, (statementPhase_ok_frame t r).2.2.2.2.2.2.1⟩

/-- **C2.** No later resolution step replaces an already-resolved
(non-sentinel) field: the phase-7 fallback `fill_from_spot` writes only
pe/pb/market_cap, each only when still at the 0 sentinel, and leaves every
other field of the record untouched; the late PS recomputation writes only a
still-sentinel `ps` and touches nothing else; and the statement phase never
touches the scorer's output fields, so they are still at their initial
defaults when the scorer finally writes them. -/
theorem C2_once_set_never_overwritten (sym : String) (sp : Except Unit (Option DataFrame))
    (em : Except Unit (Option EmResponse)) (rv : Option PyFloat)
    (st : Except String StatementTables) (r : ResultRec) :
    ((r.pe ≠ PyFloat.finite 0 → (fill_from_spot sym sp em r).pe = r.pe) ∧
     (r.pb ≠ PyFloat.finite 0 → (fill_from_spot sym sp em r).pb = r.pb) ∧
     (r.market_cap ≠ PyFloat.finite 0 →
        (fill_from_spot sym sp em r).market_cap = r.market_cap) ∧
     ((fill_from_spot sym sp em r).pe_ttm = r.pe_ttm ∧
      (fill_from_spot sym sp em r).roe = r.roe ∧
      (fill_from_spot sym sp em r).roa = r.roa ∧
      (fill_from_spot sym sp em r).growth = r.growth ∧
      (fill_from_spot sym sp em r).net_margin = r.net_margin ∧
      (fill_from_spot sym sp em r).gross_margin = r.gross_margin ∧
      (fill_from_spot sym sp em r).debt_ratio = r.debt_ratio ∧
      (fill_from_spot sym sp em r).current_ratio = r.current_ratio ∧
      (fill_from_spot sym sp em r).quick_ratio = r.quick_ratio ∧
      (fill_from_spot sym sp em r).ps = r.ps ∧
      (fill_from_spot sym sp em r).fundamental_score = r.fundamental_score ∧
      (fill_from_spot sym sp em r).valuation_score = r.valuation_score ∧
      (fill_from_spot sym sp em r).growth_score = r.growth_score ∧
      (fill_from_spot sym sp em r).risk_level = r.risk_level ∧
      (fill_from_spot sym sp em r).error = r.error)) ∧
    ((r.ps ≠ PyFloat.finite 0 → (psRecompute rv r).ps = r.ps) ∧
     ((psRecompute rv r).pe = r.pe ∧ (psRecompute rv r).pe_ttm = r.pe_ttm ∧
      (psRecompute rv r).pb = r.pb ∧ (psRecompute rv r).roe = r.roe ∧
      (psRecompute rv r).roa = r.roa ∧ (psRecompute rv r).growth = r.growth ∧
      (psRecompute rv r).net_margin = r.net_margin ∧
      (psRecompute rv r).gross_margin = r.gross_margin ∧
      (psRecompute rv r).debt_ratio = r.debt_ratio ∧
      (psRecompute rv r).current_ratio = r.current_ratio ∧
      (psRecompute rv r).quick_ratio = r.quick_ratio ∧
      (psRecompute rv r).market_cap = r.market_cap ∧
      (psRecompute rv r).fundamental_score = r.fundamental_score ∧
      (psRecompute rv r).valuation_score = r.valuation_score ∧
      (psRecompute rv r).growth_score = r.growth_score ∧
      (psRecompute rv r).risk_level = r.risk_level ∧
      (psRecompute rv r).error = r.error)) ∧
    ((statementPhase st r).1.fundamental_score = r.fundamental_score ∧
     (statementPhase st r).1.valuation_score = r.valuation_score ∧
     (statementPhase st r).1.growth_score = r.growth_score ∧
     (statementPhase st r).1.risk_level = r.risk_level) :=
  ⟨⟨fill_from_spot_keeps_pe sym sp em r, fill_from_spot_keeps_pb sym sp em r,
    fill_from_spot_keeps_mc sym sp em r, fill_from_spot_frame sym sp em r⟩,
   ⟨psRecompute_keeps_ps rv r, psRecompute_frame rv r⟩,
   statementPhase_scores st r⟩

/-- Witness for C2 at concrete non-sentinel values: pe stays 7 across the
fallback, ps stays 3 across the recomputation. -/
theorem C2_once_set_never_overwritten_witness :
    (fill_from_spot ("600519") (Except.ok none) (Except.ok none) rC2).pe = rC2.pe ∧
    (psRecompute (some (PyFloat.finite 4)) rC2).ps = rC2.ps :=
  ⟨(C2_once_set_never_overwritten ("600519") (Except.ok none) (Except.ok none)
      (some (PyFloat.finite 4)) (Except.ok ⟨none, none, none, none⟩) rC2).1.1
      (by simp [rC2]),
   (C2_once_set_never_overwritten ("600519") (Except.ok none) (Except.ok none)
      (some (PyFloat.finite 4)) (Except.ok ⟨none, none, none, none⟩) rC2).2.1.1
      (by simp [rC2])⟩

/-! ### C3 -/

theorem pyTruthy_ite_self (x : PyFloat) :
    (if pyTruthy x then x else PyFloat.finite 0) = x := by
  cases x with
  | finite q =>
    by_cases h : q = 0
    · subst h; simp [pyTruthy]
    · simp [pyTruthy, h]
  | inf => rfl
  | ninf => rfl
  | nan => rfl

theorem scorePhase_risk (r : ResultRec) :
    (scorePhase r).risk_level =
      (if pyLt (.finite 70) r.debt_ratio then ("高")
       else if pyLt (.finite 50) r.debt_ratio then ("中") else ("低")) := by
  unfold scorePhase
  simp only [pyTruthy_ite_self]

/-- **C3 counterexample.** The claim requires risk_level ∈ {低, 中, 高} on
*every* degraded path; but on the empty-symbol path the record is emitted
before the classifier runs, still carrying the initial default "中等", which
is none of the three. -/
theorem C3_counterexample :
    (mainRun envNoData ("")).risk_level = ("中等") ∧
    ¬((mainRun envNoData ("")).risk_level = ("低") ∨
      (mainRun envNoData ("")).risk_level = ("中") ∨
      (mainRun envNoData ("")).risk_level = ("高")) := by
  constructor
  · rfl
  · decide

/-- **C3 (amended).** On every run that reaches the classifier — non-empty
stripped symbol and a successful `import akshare` (which includes the
statement-fetch-failure path) — risk_level is exactly one of 低/中/高,
determined purely from the emitted record's debt_ratio: 高 if
debt_ratio > 70, 中 if 50 < debt_ratio ≤ 70, else 低. The empty-symbol and
import-failure paths return earlier with the initial default "中等". -/
theorem C3_risk_classification (env : Env) (inputSymbol : String)
    (h1 : pyStrip inputSymbol ≠ ("")) (h2 : env.akshareImport = none) :
    ((mainRun env inputSymbol).risk_level =
      (if pyLt (.finite 70) (mainRun env inputSymbol).debt_ratio then ("高")
       else if pyLt (.finite 50) (mainRun env inputSymbol).debt_ratio then ("中")
       else ("低"))) ∧
    ((mainRun env inputSymbol).risk_level = ("低") ∨
     (mainRun env inputSymbol).risk_level = ("中") ∨
     (mainRun env inputSymbol).risk_level = ("高")) := by
  obtain ⟨X, hX⟩ : ∃ X, mainRun env inputSymbol = scorePhase X := by
    simp only [mainRun, if_neg h1, h2]
    exact ⟨_, rfl⟩
  rw [hX]
  constructor
  · rw [scorePhase_risk, (scorePhase_frame X).2.2.2.2.2.2.2.2.1]
  · rw [scorePhase_risk]
    split
    · exact Or.inr (Or.inr rfl)
    · split
      · exact Or.inr (Or.inl rfl)
      · exact Or.inl rfl

/-- Witness for C3 at a concrete run that reaches the classifier. -/
theorem C3_risk_classification_witness :
    ((mainRun envNoData ("600519")).risk_level =
      (if pyLt (.finite 70) (mainRun envNoData ("600519")).debt_ratio then ("高")
       else if pyLt (.finite 50) (mainRun envNoData ("600519")).debt_ratio then ("中")
       else ("低"))) ∧
    ((mainRun envNoData ("600519")).risk_level = ("低") ∨
     (mainRun envNoData ("600519")).risk_level = ("中") ∨
     (mainRun envNoData ("600519")).risk_level = ("高")) :=
  C3_risk_classification envNoData ("600519") (by decide) rfl

/-! ### C9 -/

theorem scorePhase_error (r : ResultRec) : (scorePhase r).error = r.error := rfl

theorem psRecompute_error (rv : Option PyFloat) (r : ResultRec) :
    (psRecompute rv r).error = r.error := by
  rcases psRecompute_spec rv r with heq | ⟨h0, v, heq⟩ <;> rw [heq]

theorem mainRun_error_first_wins (env : Env) (sym : String) (e1 e2 : String)
    (h1 : pyStrip sym ≠ ("")) (h2 : env.akshareImport = none)
    (h3 : env.stmts = .error e1) (h4 : env.spotEscape = some e2) :
    (mainRun env sym).error = some (("akshare fetch failed: ") ++ e1) := by
  have hne : (("akshare fetch failed: ") ++ e1) ≠ ("") := by
    intro hc
    have hlen := congrArg String.length hc
    rw [String.length_append] at hlen
    have h22 : ("akshare fetch failed: ").length = 22 := rfl
    have h0 : ("" : String).length = 0 := rfl
    rw [h22, h0] at hlen
    omega
  simp only [mainRun, if_neg h1, h2, h3, h4, statementPhase_error_eq, scorePhase_error,
    psRecompute_error]
  simp [hne]

theorem mainRun_error_spot_only (env : Env) (sym : String) (t : StatementTables) (e2 : String)
    (h1 : pyStrip sym ≠ ("")) (h2 : env.akshareImport = none)
    (h3 : env.stmts = .ok t) (h4 : env.spotEscape = some e2)
    (h5 : (statementPhase (.ok t) ({} : ResultRec)).1.pe = PyFloat.finite 0) :
    (mainRun env sym).error = some (("fill_from_spot failed: ") ++ e2) := by
  have hxe : (statementPhase (.ok t) ({} : ResultRec)).1.error = none :=
    (statementPhase_ok_frame t {}).2.2.2.2.2.2.2
  simp only [mainRun, if_neg h1, h2, h3, h4, scorePhase_error, psRecompute_error]
  rw [if_pos (Or.inl h5)]
  simp [hxe]

/-- **C9 counterexample.** With a statement-fetch failure followed by a
spot-fallback failure, the emitted record's error string is the *first*
failure's message ("akshare fetch failed: …"), not the last
("fill_from_spot failed: …"), contradicting the claim as stated. -/
theorem C9_counterexample :
    (mainRun envDoubleFail ("600519")).error
      = some ("akshare fetch failed: statement boom") ∧
    some ("akshare fetch failed: statement boom")
      ≠ some (("fill_from_spot failed: ") ++ ("spot boom")) := by
  constructor
  · exact mainRun_error_first_wins envDoubleFail ("600519") ("statement boom") ("spot boom")
      (by decide) rfl rfl rfl
  · decide

/-- **C9 (amended).** When more than one failure is recorded during a single
invocation, the error string reflects the *first* recorded failure: an
earlier (non-empty) error message is kept by the `result.get("error") or …`
combination at line 389, and a spot-fallback failure message appears only
when no earlier failure was recorded. -/
theorem C9_error_first_failure_wins (env : Env) (sym : String) (e1 e2 : String)
    (t : StatementTables) :
    (pyStrip sym ≠ ("") → env.akshareImport = none → env.stmts = .error e1 →
      env.spotEscape = some e2 →
      (mainRun env sym).error = some (("akshare fetch failed: ") ++ e1)) ∧
    (pyStrip sym ≠ ("") → env.akshareImport = none → env.stmts = .ok t →
      env.spotEscape = some e2 →
      (statementPhase (.ok t) ({} : ResultRec)).1.pe = PyFloat.finite 0 →
      (mainRun env sym).error = some (("fill_from_spot failed: ") ++ e2)) :=
  ⟨mainRun_error_first_wins env sym e1 e2, mainRun_error_spot_only env sym t e2⟩

/-- Witness for C9: both failure modes at concrete inputs. -/
theorem C9_error_first_failure_wins_witness :
    (mainRun envDoubleFail ("600519")).error
      = some (("akshare fetch failed: ") ++ ("statement boom")) ∧
    (mainRun { envDoubleFail with stmts := .ok ⟨none, none, none, none⟩ } ("600519")).error
      = some (("fill_from_spot failed: ") ++ ("spot boom")) :=
  ⟨(C9_error_first_failure_wins envDoubleFail ("600519") ("statement boom") ("spot boom")
      ⟨none, none, none, none⟩).1 (by decide) rfl rfl rfl,
   (C9_error_first_failure_wins { envDoubleFail with stmts := .ok ⟨none, none, none, none⟩ }
      ("600519") ("statement boom") ("spot boom") ⟨none, none, none, none⟩).2
      (by decide) rfl rfl rfl (by decide)⟩

/-! ### C4 -/

/-- **C4 counterexample.** In the claimed scenario the spot 总市值 cell
(3,500,000) is multiplied by 10000 by `fill_from_spot` (the column is in
亿元), so the emitted market_cap is 35,000,000,000 — not the 3,500,000 the
claim states. -/
theorem C4_counterexample :
    (mainRun envStmtFail ("600519")).market_cap = PyFloat.finite 35000000000 ∧
    PyFloat.finite 35000000000 ≠ PyFloat.finite 3500000 := by
  constructor
  · simp +decide [mainRun, pyStrip, pyLast6, trimL, statementPhase, envStmtFail, spotDf600519,
      fill_from_spot, spotPhase, httpPhase, spotFillPe, spotFillPb, spotFillMc, httpFillPe,
      httpFillPb, httpFillMc, spotPick, memRow, rowGet, rowToDict, zipL, colIndex, filterL,
      cellAt, DataFrame.isEmptyDf, psRecompute, scorePhase, pyMin, pyLt, pyTruthy, pyAdd,
      pyMul, optTruthy, safe_float, safe_div]
    norm_num
  · simp only [ne_eq, PyFloat.finite.injEq]
    norm_num

/-- **C4 (amended).** For symbol "600519", with the statement fetch failing
entirely and the spot quote returning pe=28.5, pb=9.2 and a 总市值 cell of
3,500,000 (亿元): the emitted record has pe=28.5, pb=9.2,
market_cap=35,000,000,000 (the cell value × 10000), every statement-derived
field at the 0 sentinel, valuation_score=6.0 (neither bonus: pe ≥ 10 and
pb ≥ 1.2), fundamental_score=6.0, growth_score=6.0, risk_level="低", and a
non-empty error string. -/
theorem C4_end_to_end :
    (mainRun envStmtFail ("600519")).pe = PyFloat.finite (57/2) ∧
    (mainRun envStmtFail ("600519")).pb = PyFloat.finite (46/5) ∧
    (mainRun envStmtFail ("600519")).market_cap = PyFloat.finite 35000000000 ∧
    (mainRun envStmtFail ("600519")).pe_ttm = PyFloat.finite 0 ∧
    (mainRun envStmtFail ("600519")).roe = PyFloat.finite 0 ∧
    (mainRun envStmtFail ("600519")).roa = PyFloat.finite 0 ∧
    (mainRun envStmtFail ("600519")).growth = PyFloat.finite 0 ∧
    (mainRun envStmtFail ("600519")).net_margin = PyFloat.finite 0 ∧
    (mainRun envStmtFail ("600519")).gross_margin = PyFloat.finite 0 ∧
    (mainRun envStmtFail ("600519")).debt_ratio = PyFloat.finite 0 ∧
    (mainRun envStmtFail ("600519")).current_ratio = PyFloat.finite 0 ∧
    (mainRun envStmtFail ("600519")).quick_ratio = PyFloat.finite 0 ∧
    (mainRun envStmtFail ("600519")).ps = PyFloat.finite 0 ∧
    (mainRun envStmtFail ("600519")).valuation_score = PyFloat.finite 6 ∧
    (mainRun envStmtFail ("600519")).fundamental_score = PyFloat.finite 6 ∧
    (mainRun envStmtFail ("600519")).growth_score = PyFloat.finite 6 ∧
    (mainRun envStmtFail ("600519")).risk_level = ("低") ∧
    (mainRun envStmtFail ("600519")).error
      = some ("akshare fetch failed: mock network error") ∧
    some ("akshare fetch failed: mock network error") ≠ (some ("") : Option String) := by
  simp +decide [mainRun, pyStrip, pyLast6, trimL, statementPhase, envStmtFail, spotDf600519,
    fill_from_spot, spotPhase, httpPhase, spotFillPe, spotFillPb, spotFillMc, httpFillPe,
    httpFillPb, httpFillMc, spotPick, memRow, rowGet, rowToDict, zipL, colIndex, filterL,
    cellAt, DataFrame.isEmptyDf, psRecompute, scorePhase, pyMin, pyLt, pyTruthy, pyAdd,
    pyMul, optTruthy, safe_float, safe_div]
  norm_num

/-! ### C1 -/

/-- **C1 counterexample.** A raw growth cell of "15.2" resolved from the
pivoted abstract table is stored as 15.2, not 0.152: line 296 assigns the
`extract_from_abstract` value to `growth_val` with no magnitude check, and
line 369 stores it unchanged — the divide-by-100 normalization does not apply
on this path, contradicting the claim's "every raw growth value". -/
theorem C1_counterexample :
    (mainRun envAbstractGrowth ("600519")).growth = PyFloat.finite (76/5) ∧
    PyFloat.finite (76/5) ≠ PyFloat.finite (19/125) := by
  constructor
  · simp +decide [mainRun, pyStrip, pyLast6, trimL, statementPhase, envAbstractGrowth,
      dfAbstract, extract_from_abstract, sortStrDesc, insertDesc, rowToDict, cellAt,
      colIndex, filterL, firstSome?, rowGet, zipL, DataFrame.isEmptyDf, kwMatch,
      containsLower, infixL, startsL, pyStr, lowerL, charToLower, safe_float, pyParseFloat,
      parseSignedQ, parseUnsignedQ, parseMantissa, parseExp, splitFirst, isDigits, digitsVal,
      extract_metric, extractGo, get_latest_row, rowTruthy, pyOrZero, yoyNormalize,
      safe_div, optTruthy, setPe, setPeTtm, setPb, setRoe, setRoa, setGrossMargin,
      setNetMargin, setMarketCap, setGrowth, setDebtPct, setCurrentR, setQuickR, setPs,
      fill_from_spot, spotPhase, httpPhase, psRecompute, scorePhase, pyMin, pyLt, pyTruthy,
      pyAdd, pyMul, pyAbs, pyDiv, memL, sortValues, keysSortable, rawCompare, compareStr,
      pyFloatCompare, compareQ, sortRows, insertRow, rawLe, last?]
    norm_num
  · simp only [ne_eq, PyFloat.finite.injEq]
    norm_num

/-- **C1 (amended).** The divide-by-100 unit normalization applies only on
the income-statement year-over-year path: when the abstract-table growth
lookup fails and the income row yields a raw value v, the stored growth is
v/100 if |v| > 1 and v otherwise (so a raw 15.2 is stored as 0.152); a growth
value resolved from the pivoted abstract table is stored as-is, with no
normalization. -/
theorem C1_growth_normalization (t : StatementTables) (v : PyFloat) :
    (extract_from_abstract t.abstract
        [("净利润同比增长"), ("净利润同比增长率"), ("归母净利润同比增长")] = none →
     rowTruthy (get_latest_row t.income) = true →
     extract_metric (get_latest_row t.income)
        [("parent_netprofit_yoy"), ("netprofit_yoy"), ("total_operate_income_yoy"),
         ("operate_income_yoy")] = some v →
     (statementPhase (.ok t) ({} : ResultRec)).1.growth
       = (if pyLt (.finite 1) (pyAbs v) then pyDiv v (.finite 100) else v)) ∧
    (extract_from_abstract t.abstract
        [("净利润同比增长"), ("净利润同比增长率"), ("归母净利润同比增长")] = some v →
     (statementPhase (.ok t) ({} : ResultRec)).1.growth = v) := by
  constructor
  · intro h1 h2 h3
    simp only [statementPhase, setPe_eq, setPeTtm_eq, setPb_eq, setRoe_eq, setRoa_eq,
      setGrossMargin_eq, setNetMargin_eq, setMarketCap_eq, setGrowth_eq, setDebtPct_eq,
      setCurrentR_eq, setQuickR_eq, setPs_eq]
    simp [h1, h2, h3, yoyNormalize]
  · intro h1
    simp only [statementPhase, setPe_eq, setPeTtm_eq, setPb_eq, setRoe_eq, setRoa_eq,
      setGrossMargin_eq, setNetMargin_eq, setMarketCap_eq, setGrowth_eq, setDebtPct_eq,
      setCurrentR_eq, setQuickR_eq, setPs_eq]
    simp [h1]

/-- Witness for C1: on the income-statement path a raw "15.2" is stored as
0.152; on the abstract-table path a raw "15.2" is stored as 15.2. -/
theorem C1_growth_normalization_witness :
    (statementPhase (.ok ⟨none, none, some dfIncomeYoy, none⟩) ({} : ResultRec)).1.growth
      = PyFloat.finite (19/125) ∧
    (statementPhase (.ok ⟨some dfAbstract, none, none, none⟩) ({} : ResultRec)).1.growth
      = PyFloat.finite (76/5) := by
  constructor
  · refine ((C1_growth_normalization ⟨none, none, some dfIncomeYoy, none⟩
      (PyFloat.finite (76/5))).1 rfl (by decide) ?h3).trans ?eval
    case h3 =>
      simp +decide [dfIncomeYoy, get_latest_row, DataFrame.isEmptyDf, memL, sortValues,
        colIndex, keysSortable, rawCompare, compareStr, pyFloatCompare, compareQ, sortRows,
        insertRow, rawLe, cellAt, last?, rowToDict, zipL, extract_metric, extractGo, kwMatch,
        containsLower, infixL, startsL, lowerL, charToLower, safe_float, pyParseFloat,
        parseSignedQ, parseUnsignedQ, parseMantissa, parseExp, splitFirst, isDigits,
        digitsVal, trimL]
      norm_num
    case eval =>
      have habs : |(76/5 : ℚ)| = 76/5 := abs_of_pos (by norm_num)
      simp +decide [pyLt, pyAbs, pyDiv, habs]
      norm_num
  · refine ((C1_growth_normalization ⟨some dfAbstract, none, none, none⟩
      (PyFloat.finite (76/5))).2 ?h1)
    case h1 =>
      simp +decide [dfAbstract, extract_from_abstract, sortStrDesc, insertDesc, rowToDict,
        cellAt, colIndex, filterL, firstSome?, rowGet, zipL, DataFrame.isEmptyDf, kwMatch,
        containsLower, infixL, startsL, pyStr, lowerL, charToLower, safe_float, pyParseFloat,
        parseSignedQ, parseUnsignedQ, parseMantissa, parseExp, splitFirst, isDigits,
        digitsVal, trimL]
      norm_num

/-! ### C8 -/

theorem extractGo_some (keywords : List String) (row : Row) (v : PyFloat)
    (h : extractGo keywords row = some v) :
    ∃ pre k raw post, row = pre ++ (k, raw) :: post ∧ kwMatch keywords k = true ∧
      safe_float raw = some v ∧
      ∀ p ∈ pre, kwMatch keywords p.1 = true → safe_float p.2 = none := by
  induction row with
  | nil => simp [extractGo] at h
  | cons a rest ih =>
    obtain ⟨k, raw⟩ := a
    by_cases hm : kwMatch keywords k = true
    · cases hf : safe_float raw with
      | some w =>
        have hw : w = v := by
          rw [extractGo, if_pos hm, hf] at h
          simpa using h
        exact ⟨[], k, raw, rest, by simp, hm, by rw [hf, hw], by simp⟩
      | none =>
        have h' : extractGo keywords rest = some v := by
          rw [extractGo, if_pos hm, hf] at h
          simpa using h
        obtain ⟨pre, k', raw', post, hr, hm', hf', hpre⟩ := ih h'
        refine ⟨(k, raw) :: pre, k', raw', post, by simp [hr], hm', hf', ?_⟩
        intro p hp hmp
        rcases List.mem_cons.mp hp with rfl | hp'
        · exact hf
        · exact hpre p hp' hmp
    · have h' : extractGo keywords rest = some v := by
        rw [extractGo, if_neg hm] at h
        exact h
      obtain ⟨pre, k', raw', post, hr, hm', hf', hpre⟩ := ih h'
      refine ⟨(k, raw) :: pre, k', raw', post, by simp [hr], hm', hf', ?_⟩
      intro p hp hmp
      rcases List.mem_cons.mp hp with rfl | hp'
      · exact absurd hmp hm
      · exact hpre p hp' hmp

theorem extractGo_none (keywords : List String) (row : Row)
    (h : extractGo keywords row = none) :
    ∀ p ∈ row, kwMatch keywords p.1 = true → safe_float p.2 = none := by
  induction row with
  | nil => intro p hp; simp at hp
  | cons a rest ih =>
    obtain ⟨k, raw⟩ := a
    intro p hp hmp
    by_cases hm : kwMatch keywords k = true
    · cases hf : safe_float raw with
      | some w =>
        rw [extractGo, if_pos hm, hf] at h
        simp at h
      | none =>
        have h' : extractGo keywords rest = none := by
          rw [extractGo, if_pos hm, hf] at h
          simpa using h
        rcases List.mem_cons.mp hp with rfl | hp'
        · exact hf
        · exact ih h' p hp' hmp
    · have h' : extractGo keywords rest = none := by
        rw [extractGo, if_neg hm] at h
        exact h
      rcases List.mem_cons.mp hp with rfl | hp'
      · exact absurd hmp hm
      · exact ih h' p hp' hmp

/-- **C8.** The Field Resolver: `None`/empty rows resolve to absent; on a
non-empty row `extract_metric` is the first-match loop (shared with
`pick_by_keywords`); when the loop returns a value, the row splits around the
*first* column (in row order) whose name case-insensitively contains some
keyword as a substring and whose value sanitizes — every earlier
keyword-matching column has an absent value; when it returns absent, every
keyword-matching column in the row sanitizes to absent. Concretely, the row
{"净利润同比增长率": "15.2"} with keyword "同比" resolves to 15.2. -/
theorem C8_field_resolver (row : Row) (keywords : List String) (v : PyFloat) :
    (extract_metric none keywords = none) ∧
    (extract_metric (some []) keywords = none) ∧
    (row ≠ [] → extract_metric (some row) keywords = pick_by_keywords row keywords) ∧
    (pick_by_keywords row keywords = some v →
      ∃ pre k raw post, row = pre ++ (k, raw) :: post ∧ kwMatch keywords k = true ∧
        safe_float raw = some v ∧
        ∀ p ∈ pre, kwMatch keywords p.1 = true → safe_float p.2 = none) ∧
    (pick_by_keywords row keywords = none →
      ∀ p ∈ row, kwMatch keywords p.1 = true → safe_float p.2 = none) ∧
    (extract_metric (some [(("净利润同比增长率"), RawVal.str ("15.2"))]) [("同比")]
      = some (PyFloat.finite (76/5))) := by
  refine ⟨rfl, rfl, ?_, extractGo_some keywords row v, extractGo_none keywords row, ?_⟩
  · intro hne
    simp [extract_metric, pick_by_keywords, hne]
  · simp +decide [extract_metric, extractGo, kwMatch, containsLower, infixL, startsL,
      safe_float, pyParseFloat, parseSignedQ, parseUnsignedQ, parseMantissa, parseExp,
      splitFirst, isDigits, digitsVal, lowerL, trimL, charToLower]
    norm_num

/-- Witness for C8 on the concrete one-column row: the split around the first
matching, sanitizable column. -/
theorem C8_field_resolver_witness :
    ∃ pre k raw post,
      ([(("净利润同比增长率"), RawVal.str ("15.2"))] : Row) = pre ++ (k, raw) :: post ∧
      kwMatch [("同比")] k = true ∧ safe_float raw = some (PyFloat.finite (76/5)) ∧
      ∀ p ∈ pre, kwMatch [("同比")] p.1 = true → safe_float p.2 = none :=
  (C8_field_resolver [(("净利润同比增长率"), RawVal.str ("15.2"))] [("同比")]
      (PyFloat.finite (76/5))).2.2.2.1
    (by simp +decide [pick_by_keywords, extractGo, kwMatch, containsLower, infixL, startsL,
          safe_float, pyParseFloat, parseSignedQ, parseUnsignedQ, parseMantissa, parseExp,
          splitFirst, isDigits, digitsVal, lowerL, trimL, charToLower]
        norm_num)

/-! ### C7: order lemmas for the row sort -/

theorem compareQ_gt_iff (a b : ℚ) : compareQ a b = Ordering.gt ↔ b < a := by
  rcases lt_trichotomy a b with h | h | h
  · simp only [compareQ, if_pos h]
    constructor
    · intro hc; cases hc
    · intro hba; exact absurd h (not_lt.mpr hba.le)
  · subst h
    simp [compareQ, lt_irrefl]
  · simp only [compareQ, if_neg (not_lt.mpr h.le), if_pos h]
    simp [h]

theorem compareStr_gt_iff (a b : String) : compareStr a b = Ordering.gt ↔ b < a := by
  rcases lt_trichotomy a b with h | h | h
  · simp only [compareStr, if_pos h]
    constructor
    · intro hc; cases hc
    · intro hba; exact absurd h (not_lt.mpr hba.le)
  · subst h
    simp [compareStr, lt_irrefl]
  · simp only [compareStr, if_neg (not_lt.mpr h.le), if_pos h]
    simp [h]

theorem pyFloatCompare_gt_asymm (x y : PyFloat) (h : pyFloatCompare x y = Ordering.gt) :
    ¬(pyFloatCompare y x = Ordering.gt) := by
  intro hc
  cases x <;> cases y <;> simp [pyFloatCompare] at h hc <;>
    rw [compareQ_gt_iff] at h hc <;> exact absurd h (not_lt.mpr hc.le)

theorem rawLe_eq_false_iff (x y : RawVal) :
    rawLe x y = false ↔ rawCompare x y = some Ordering.gt := by
  unfold rawLe
  cases hc : rawCompare x y with
  | none => simp
  | some o => cases o <;> simp

theorem rawLe_total (x y : RawVal) (h : (rawCompare x y).isSome = true) :
    rawLe x y = true ∨ rawLe y x = true := by
  by_cases hxy : rawLe x y = true
  · exact Or.inl hxy
  · right
    have hgt : rawCompare x y = some Ordering.gt :=
      (rawLe_eq_false_iff x y).mp (by simpa using hxy)
    by_contra hyx
    have hgt2 : rawCompare y x = some Ordering.gt :=
      (rawLe_eq_false_iff y x).mp (by simpa using hyx)
    cases x <;> cases y <;> simp [rawCompare] at hgt hgt2
    · exact pyFloatCompare_gt_asymm _ _ hgt hgt2
    · rw [compareStr_gt_iff] at hgt hgt2
      exact absurd hgt (not_lt.mpr hgt2.le)

theorem keysSortable_pair {ks : List RawVal} (h : keysSortable ks = true) {a b : RawVal}
    (ha : a ∈ ks) (hb : b ∈ ks) : (rawCompare a b).isSome = true := by
  unfold keysSortable at h
  rw [List.all_eq_true] at h
  have h2 := h a ha
  rw [List.all_eq_true] at h2
  exact h2 b hb

theorem keysSortable_tail {k : RawVal} {ks : List RawVal}
    (h : keysSortable (k :: ks) = true) : keysSortable ks = true := by
  unfold keysSortable at h ⊢
  rw [List.all_eq_true] at h ⊢
  intro a ha
  have h2 := h a (List.mem_cons_of_mem _ ha)
  rw [List.all_eq_true] at h2 ⊢
  intro b hb
  exact h2 b (List.mem_cons_of_mem _ hb)

theorem insertRow_perm (i : ℕ) (r : List RawVal) (l : List (List RawVal)) :
    (insertRow i r l).Perm (r :: l) := by
  induction l with
  | nil => simp [insertRow]
  | cons s rest ih =>
    unfold insertRow
    split
    · exact List.Perm.refl _
    · exact (List.Perm.cons s ih).trans (List.Perm.swap r s rest)

theorem sortRows_perm (i : ℕ) (l : List (List RawVal)) : (sortRows i l).Perm l := by
  induction l with
  | nil => exact List.Perm.refl _
  | cons r rest ih => exact (insertRow_perm i r _).trans (List.Perm.cons r ih)

theorem chain'_insertRow (i : ℕ) (r : List RawVal) (l : List (List RawVal))
    (htot : ∀ s ∈ l, rawLe (cellAt r i) (cellAt s i) = true ∨
      rawLe (cellAt s i) (cellAt r i) = true)
    (hl : List.Chain' (fun a b => rawLe (cellAt a i) (cellAt b i) = true) l) :
    List.Chain' (fun a b => rawLe (cellAt a i) (cellAt b i) = true) (insertRow i r l) := by
  induction l with
  | nil => simp [insertRow]
  | cons s rest ih =>
    unfold insertRow
    split
    · rename_i hle
      exact List.Chain'.cons hle hl
    · rename_i hnle
      have hsr : rawLe (cellAt s i) (cellAt r i) = true := by
        rcases htot s (List.mem_cons_self s rest) with h | h
        · exact absurd h hnle
        · exact h
      have hrest := ih (fun x hx => htot x (List.mem_cons_of_mem _ hx)) hl.tail
      refine hrest.cons' ?_
      intro y hy
      cases rest with
      | nil =>
        simp [insertRow] at hy
        subst hy
        exact hsr
      | cons t ts =>
        rw [insertRow] at hy
        split at hy
        · simp at hy
          subst hy
          exact hsr
        · simp at hy
          subst hy
          exact (List.chain'_cons.mp hl).1

theorem chain'_sortRows (i : ℕ) (l : List (List RawVal))
    (hsort : keysSortable (l.map (fun r => cellAt r i)) = true) :
    List.Chain' (fun a b => rawLe (cellAt a i) (cellAt b i) = true) (sortRows i l) := by
  induction l with
  | nil => simp [sortRows]
  | cons r rest ih =>
    have hsort' : keysSortable (rest.map (fun r => cellAt r i)) = true := by
      rw [List.map_cons] at hsort
      exact keysSortable_tail hsort
    unfold sortRows
    apply chain'_insertRow
    · intro s hs
      have hmem : s ∈ rest := ((sortRows_perm i rest).mem_iff).mp hs
      apply rawLe_total
      exact keysSortable_pair hsort (by simp) (List.mem_map_of_mem _ (List.mem_cons_of_mem r hmem))
    · exact ih hsort'

theorem sortValues_ok_spec (df : DataFrame) (c : String) (sorted : List (List RawVal))
    (h : sortValues df c = .ok sorted) :
    ∃ i, colIndex c df.cols = some i ∧ sorted = sortRows i df.rows ∧
      sorted.Perm df.rows ∧
      List.Chain' (fun a b => rawLe (cellAt a i) (cellAt b i) = true) sorted := by
  unfold sortValues at h
  split at h
  · cases h
  · rename_i i hci
    split at h
    · rename_i hs
      injection h with h2
      subst h2
      exact ⟨i, hci, rfl, sortRows_perm i df.rows, chain'_sortRows i df.rows hs⟩
    · cases h

/-- **C7 counterexample.** On a table whose `REPORT_DATE` keys are not
mutually comparable (the sort by the period-date column raises) but whose
first column sorts fine, the selector returns the last row of the
*first-column* sort — not the table's existing last row, which the claim
prescribes when sorting fails. -/
theorem C7_counterexample :
    get_latest_row (some dfMixedDates)
      = some [(("A"), RawVal.str ("b")), (("REPORT_DATE"), RawVal.num (PyFloat.finite 1))] ∧
    some [(("A"), RawVal.str ("b")), (("REPORT_DATE"), RawVal.num (PyFloat.finite 1))]
      ≠ ((last? dfMixedDates.rows).map (rowToDict dfMixedDates)) := by
  constructor
  · simp +decide [get_latest_row, dfMixedDates, DataFrame.isEmptyDf, memL, sortValues,
      colIndex, keysSortable, rawCompare, compareStr, pyFloatCompare, compareQ, sortRows,
      insertRow, rawLe, cellAt, last?, rowToDict, zipL]
  · decide

/-- **C7 (amended).** The Latest-Period Selector returns absent for a `None`
or empty table and never raises. When the canonical `REPORT_DATE` column
exists and sorting by it succeeds, it returns the last row of that ascending
sort — a permutation of the table's rows that is ascending (adjacent-wise)
under the pandas key order on the sort column. When that sort fails — or the
column is absent — it falls back to sorting ascending by the *first* column
in the same way (not directly to the existing last row); only when that sort
also fails does it return the table's existing last row unmodified. Rows
dated ["20230331","20230630","20221231"] yield the "20230630" row. -/
theorem C7_get_latest_row (df : DataFrame) (sorted : List (List RawVal)) :
    (get_latest_row none = none) ∧
    (df.isEmptyDf = true → get_latest_row (some df) = none) ∧
    (df.isEmptyDf = false → memL ("REPORT_DATE") df.cols = true →
      sortValues df ("REPORT_DATE") = .ok sorted →
      get_latest_row (some df) = (last? sorted).map (rowToDict df) ∧
      sorted.Perm df.rows ∧
      ∃ i, colIndex ("REPORT_DATE") df.cols = some i ∧
        List.Chain' (fun a b => rawLe (cellAt a i) (cellAt b i) = true) sorted) ∧
    (df.isEmptyDf = false →
      (if memL ("REPORT_DATE") df.cols then sortValues df ("REPORT_DATE")
       else Except.error ()) = .error () →
      sortValues df (df.cols.headD ("")) = .ok sorted →
      get_latest_row (some df) = (last? sorted).map (rowToDict df) ∧
      sorted.Perm df.rows ∧
      ∃ i, colIndex (df.cols.headD ("")) df.cols = some i ∧
        List.Chain' (fun a b => rawLe (cellAt a i) (cellAt b i) = true) sorted) ∧
    (df.isEmptyDf = false →
      (if memL ("REPORT_DATE") df.cols then sortValues df ("REPORT_DATE")
       else Except.error ()) = .error () →
      sortValues df (df.cols.headD ("")) = .error () →
      get_latest_row (some df) = (last? df.rows).map (rowToDict df)) ∧
    (get_latest_row (some dfDates)
      = some [(("REPORT_DATE"), RawVal.str ("20230630")),
              (("v"), RawVal.num (PyFloat.finite 2))]) := by
  refine ⟨rfl, ?_, ?_, ?_, ?_, ?_⟩
  · intro he
    simp [get_latest_row, he]
  · intro hne hmem hok
    obtain ⟨i, hci, -, hperm, hchain⟩ := sortValues_ok_spec df ("REPORT_DATE") sorted hok
    refine ⟨?_, hperm, i, hci, hchain⟩
    simp [get_latest_row, hne, hmem, hok]
  · intro hne hfail hok
    obtain ⟨i, hci, -, hperm, hchain⟩ := sortValues_ok_spec df (df.cols.headD ("")) sorted hok
    refine ⟨?_, hperm, i, hci, hchain⟩
    simp only [get_latest_row, hne, Bool.false_eq_true, if_false, hfail, hok]
  · intro hne hfail hfail2
    simp only [get_latest_row, hne, Bool.false_eq_true, if_false, hfail, hfail2]
  · simp +decide [get_latest_row, dfDates, DataFrame.isEmptyDf, memL, sortValues,
      colIndex, keysSortable, rawCompare, compareStr, pyFloatCompare, compareQ, sortRows,
      insertRow, rawLe, cellAt, last?, rowToDict, zipL]

/-- Witness for C7: the date-sorted branch on the concrete three-row table. -/
theorem C7_get_latest_row_witness :
    get_latest_row (some dfDates)
      = (last? [[RawVal.str ("20221231"), RawVal.num (PyFloat.finite 3)],
                [RawVal.str ("20230331"), RawVal.num (PyFloat.finite 1)],
                [RawVal.str ("20230630"), RawVal.num (PyFloat.finite 2)]]).map
          (rowToDict dfDates) ∧
    ([[RawVal.str ("20221231"), RawVal.num (PyFloat.finite 3)],
      [RawVal.str ("20230331"), RawVal.num (PyFloat.finite 1)],
      [RawVal.str ("20230630"), RawVal.num (PyFloat.finite 2)]] : List (List RawVal)).Perm
      dfDates.rows ∧
    (∃ i, colIndex ("REPORT_DATE") dfDates.cols = some i ∧
      List.Chain' (fun a b => rawLe (cellAt a i) (cellAt b i) = true)
        [[RawVal.str ("20221231"), RawVal.num (PyFloat.finite 3)],
         [RawVal.str ("20230331"), RawVal.num (PyFloat.finite 1)],
         [RawVal.str ("20230630"), RawVal.num (PyFloat.finite 2)]]) :=
  (C7_get_latest_row dfDates
      [[RawVal.str ("20221231"), RawVal.num (PyFloat.finite 3)],
       [RawVal.str ("20230331"), RawVal.num (PyFloat.finite 1)],
       [RawVal.str ("20230630"), RawVal.num (PyFloat.finite 2)]]).2.2.1
    (by decide) (by decide)
    (by simp +decide [dfDates, sortValues, colIndex, keysSortable, rawCompare, compareStr,
          pyFloatCompare, compareQ, sortRows, insertRow, rawLe, cellAt])
